import Mathlib

/-!
A shallow embedding of the argo-cd application state comparison engine
(`controller/state.go`): the data model (applications, sources, resource
objects, comparison results), the normalization/deduplication pass, the
GnuPG signature gate, the diff-cache decision, the self-reference
(ownership) check, manifest acquisition (`GetRepoObjs`) and the top-level
comparison orchestrator (`CompareAppState`).  External collaborators
(repo server, cluster cache, settings manager, gitops-engine helpers)
are modelled as explicit environment records of functions; machine
behaviour local to the reviewed file is translated directly.
-/

set_option maxHeartbeats 1000000

/-- Sync status codes of `v1alpha1.SyncStatusCode`; `unset` is Go's zero
string value, distinct from the `Unknown` code. -/
inductive SyncStatusCode where
  | unset
  | synced
  | outOfSync
  | unknown
deriving DecidableEq, Repr

/-- Health status codes of `health.HealthStatusCode` (only `unknown` is
relevant to the reviewed control flow). -/
inductive HealthStatusCode where
  | unknown
  | progressing
  | healthy
  | suspended
  | degraded
  | missing
deriving DecidableEq, Repr

/-- A Kubernetes group/kind pair. -/
structure GroupKind where
  group : String
  kind : String
deriving DecidableEq, Repr

/-- `kube.ResourceKey`: identity of a resource (version excluded). -/
structure ResourceKey where
  group : String
  kind : String
  ns : String
  name : String
deriving DecidableEq, Repr

/-- `kube.ResourceKey.String()`: "group/kind/namespace/name". -/
def ResourceKey.toText (k : ResourceKey) : String :=
  k.group ++ ("/" ++ (k.kind ++ ("/" ++ (k.ns ++ ("/" ++ k.name)))))

/-- An unstructured Kubernetes object, restricted to the fields the
reviewed code reads (`GroupVersionKind`, namespace, name, generateName,
resourceVersion).  Annotation-driven predicates over the full object are
modelled as environment functions. -/
structure Obj where
  group : String
  version : String
  kind : String
  ns : String
  name : String
  generateName : String
  resourceVersion : String
deriving DecidableEq, Repr

instance : Inhabited Obj := ⟨⟨"", "", "", "", "", "", ""⟩⟩

def Obj.groupKind (o : Obj) : GroupKind := ⟨o.group, o.kind⟩

/-- `schema.GroupVersionKind.String()` as used in the missing-namespace
condition message. -/
def Obj.gvkText (o : Obj) : String :=
  o.group ++ ("/" ++ (o.version ++ (", Kind=" ++ o.kind)))

/-- An application destination (cluster server URL + namespace). -/
structure Destination where
  server : String
  ns : String
deriving DecidableEq, Repr

instance : Inhabited Destination := ⟨⟨"", ""⟩⟩

/-- A single application source.  `isHelmSrc`/`isOCISrc` model the
externally defined `ApplicationSource.IsHelm`/`IsOCI` predicates
(chart-style and registry-style references). -/
structure Source where
  repoURL : String
  targetRevision : String
  path : String
  chart : String
  isHelmSrc : Bool
  isOCISrc : Bool
deriving DecidableEq, Repr

instance : Inhabited Source := ⟨⟨"", "", "", "", false, false⟩⟩

/-- Sync policy: only the presence of managed-namespace metadata and the
sync options list are read by the reviewed code. -/
structure SyncPolicy where
  hasManagedNamespaceMetadata : Bool
  syncOptions : List String
deriving DecidableEq, Repr

/-- `v1alpha1.ComparedTo`: the snapshot of what a comparison ran against. -/
structure ComparedTo where
  destination : Destination
  source : Source
  sources : List Source
  ignoreDifferences : List String
deriving DecidableEq, Repr

/-- The application spec fields read by the comparison engine. -/
structure ApplicationSpec where
  project : String
  destination : Destination
  source : Option Source
  sources : List Source
  ignoreDifferences : List String
  syncPolicy : Option SyncPolicy
deriving DecidableEq, Repr

/-- An application, with externally computed read-only status accessors
(`IsRefreshRequested`, `Status.Expired`, `Status.GetRevisions`,
`HasChangedManagedNamespaceMetadata`, the manifest-generate-paths
annotation lookup) flattened into fields. -/
structure Application where
  name : String
  qualifiedName : String
  instanceName : String
  spec : ApplicationSpec
  statusSyncRevision : String
  statusSyncRevisions : List String
  statusGetRevisions : List String
  statusComparedTo : ComparedTo
  statusExpired : Bool
  refreshRequested : Bool
  hasChangedManagedNamespaceMetadata : Bool
  manifestGeneratePathsAnn : Option String
deriving DecidableEq, Repr

/-- `ApplicationSpec.HasMultipleSources()`. -/
def Application.hasMultipleSources (app : Application) : Bool :=
  decide (app.spec.sources ≠ [])

/-- An application project: only the declared signature key ids are read
directly; permission predicates are environment functions. -/
structure AppProject where
  name : String
  signatureKeys : List String
  sourceRepos : List String
deriving DecidableEq, Repr

/-- Application condition types used by the reviewed code. -/
inductive ApplicationConditionType where
  | comparisonError
  | sharedResourceWarning
  | repeatedResourceWarning
  | excludedResourceWarning
  | invalidSpecError
  | unknownError
deriving DecidableEq, Repr

/-- An application condition (the transition timestamp attached by the Go
code carries no decision content and is dropped). -/
structure ApplicationCondition where
  ctype : ApplicationConditionType
  message : String
deriving DecidableEq, Repr

/-- Count of conditions equal to `c` in a condition list. -/
def countCond (l : List ApplicationCondition) (c : ApplicationCondition) : Nat :=
  (l.filter (fun x => decide (x = c))).length

/-- A manifest response from the repo server, restricted to the fields the
comparison path reads. -/
structure ManifestResponse where
  manifests : List String
  revision : String
  sourceType : String
  verifyResult : String
deriving DecidableEq, Repr

/-- A structural diff result for one resource pair. -/
structure DiffResult where
  modified : Bool
  normalizedLive : String
  predictedLive : String
deriving DecidableEq, Repr

/-- The zero-valued fallback diff used when the diff list is shorter than
the reconciliation list. -/
def emptyDiffResult : DiffResult := ⟨false, "\x7b\x7d", "\x7b\x7d"⟩

instance : Inhabited DiffResult := ⟨emptyDiffResult⟩

/-- Per-resource public status record. -/
structure ResourceStatus where
  group : String
  version : String
  kind : String
  ns : String
  name : String
  status : SyncStatusCode
  hook : Bool
  requiresPruning : Bool
  requiresDeletionConfirmation : Bool
  syncWave : Int
deriving DecidableEq, Repr

instance : Inhabited ResourceStatus :=
  ⟨⟨"", "", "", "", "", .unset, false, false, false, 0⟩⟩

/-- The `managedResource` pairing record. -/
structure ManagedResourceRec where
  target : Option Obj
  live : Option Obj
  diff : DiffResult
  group : String
  version : String
  kind : String
  ns : String
  name : String
  hook : Bool
  resourceVersion : String
deriving DecidableEq, Repr

instance : Inhabited ManagedResourceRec :=
  ⟨⟨none, none, emptyDiffResult, "", "", "", "", "", false, ""⟩⟩

/-- `argo.AppInstanceValue`: the identity tuple encoded by a tracking id. -/
structure AppInstanceValue where
  applicationName : String
  group : String
  kind : String
  ns : String
  name : String
deriving DecidableEq, Repr

/-- Aggregate sync status record (`v1alpha1.SyncStatus`). -/
structure SyncStatusRec where
  status : SyncStatusCode
  revision : String
  revisions : List String
  comparedTo : ComparedTo
deriving DecidableEq, Repr

/-- The diff configuration decisions made by the orchestrator. -/
structure DiffConfigE where
  useCache : Bool
  serverSideDiff : Bool
  structuredMergeDiff : Bool
  ignoreMutationWebhook : Bool
deriving DecidableEq, Repr

instance : Inhabited DiffConfigE := ⟨⟨false, false, false, true⟩⟩

/-- The engine's complete output (`comparisonResult`), timing fields
dropped; the condition list passed to `SetConditions` is surfaced as a
field. -/
structure ComparisonResultE where
  syncStatus : SyncStatusRec
  healthStatus : HealthStatusCode
  resources : List ResourceStatus
  managedResources : List ManagedResourceRec
  conditions : List ApplicationCondition
  diffConfig : DiffConfigE
  revisionsMayHaveChanges : Bool
  hasPostDeleteHooks : Bool
  appSourceType : String
  appSourceTypes : List String
deriving Repr

/-- Errors `CompareAppState` can return: the sentinel `ErrCompareStateRepo`
or a raw error (destination-cluster lookup failure). -/
inductive CompareErr where
  | repoSentinel
  | destErr (msg : String)
deriving DecidableEq, Repr

/-- The controller-level tracking method constant `TrackingMethodLabel`. -/
def trackingMethodLabel : String := "label"

/-- `kube.NamespaceKind`. -/
def namespaceKind : String := "Namespace"

/-- `common.AnnotationCompareOptions`. -/
def annotationCompareOptions : String := "argocd.argoproj.io/compare-options"

/-- `synccommon.AnnotationSyncOptions`. -/
def annotationSyncOptions : String := "argocd.argoproj.io/sync-options"

/-- `synccommon.SyncOptionDeleteRequireConfirm`. -/
def syncOptionDeleteRequireConfirm : String := "Delete=require-confirmation"

/-- `isManagedNamespace`: the object is a namespace resource matching the
destination namespace while the application declares managed-namespace
metadata. -/
def isManagedNamespace (o? : Option Obj) (app : Application) : Bool :=
  match o? with
  | none => false
  | some n =>
    decide (n.kind = namespaceKind) && decide (n.name = app.spec.destination.ns) &&
      (match app.spec.syncPolicy with
       | some sp => sp.hasManagedNamespaceMetadata
       | none => false)

/-- Free function `isSelfReferencedObj`: the tracking id tuple matches the
object's own identity (namespace match tolerates a cluster-scoped empty
namespace). -/
def isSelfReferencedObj (obj : Obj) (aiv : AppInstanceValue) : Bool :=
  (decide (obj.ns = aiv.ns) || decide (obj.ns = "")) &&
    decide (obj.name = aiv.name) &&
    decide (obj.group = aiv.group) &&
    decide (obj.kind = aiv.kind)

/-- Method `appStateManager.isSelfReferencedObj`: decides whether a live
object is legitimately owned by this application.  The externally defined
tuple constructors (`argo.UnstructuredToAppInstanceValue` and
`resourceTracking.GetAppInstance`) are passed in as functions. -/
def managerIsSelfReferencedObj
    (unstructuredToAIV : Obj → String → String → AppInstanceValue)
    (getAppInstance : Obj → String → String → Option AppInstanceValue)
    (live config : Option Obj) (appName trackingMethod installationID : String) : Bool :=
  match live with
  | none => true
  | some l =>
    if trackingMethod = trackingMethodLabel then true
    else
      match config with
      | some c => isSelfReferencedObj l (unstructuredToAIV c appName "")
      | none =>
        match getAppInstance l trackingMethod installationID with
        | some aiv => isSelfReferencedObj l aiv
        | none => true

/-! ## Object normalization and deduplication -/

/-- The namespace normalization `DeduplicateTargetObjects` applies before
keying: cluster-scoped objects get an empty namespace, namespaced objects
with an empty namespace default to the destination namespace.
`isNamespaced : GroupKind → Bool` is `kube.IsNamespacedOrUnknown` over the
cluster's resource info provider. -/
def normalizeForDedup (ns : String) (isNamespaced : GroupKind → Bool) (o : Obj) : Obj :=
  if !(isNamespaced o.groupKind) then { o with ns := "" }
  else if o.ns = "" then { o with ns := ns }
  else o

/-- The grouping key for a (normalized) object at input index `i`:
`kube.GetResourceKey`, with generateName-plus-index tie-breaking when the
name is empty. -/
def dedupKey (i : Nat) (o : Obj) : ResourceKey :=
  let k : ResourceKey := ⟨o.group, o.kind, o.ns, o.name⟩
  if k.name = "" && o.generateName ≠ "" then { k with name := o.generateName ++ toString i }
  else k

/-- The keyed, normalized target list: nil entries are skipped, indices are
the original slice indices. -/
def keyedTargets (ns : String) (isNamespaced : GroupKind → Bool)
    (objs : List (Option Obj)) : List (ResourceKey × Obj) :=
  objs.enum.filterMap (fun p =>
    match p.2 with
    | none => none
    | some o =>
      let n := normalizeForDedup ns isNamespaced o
      some (dedupKey p.1 n, n))

/-- Append `o` under key `k`, preserving first-seen key order (the Go code
uses a map keyed by `ResourceKey`; list order stands in for the map's
iteration order, which the reviewed properties do not depend on). -/
def insertGrouped (gs : List (ResourceKey × List Obj)) (k : ResourceKey) (o : Obj) :
    List (ResourceKey × List Obj) :=
  match gs with
  | [] => [(k, [o])]
  | (k', l) :: rest =>
    if k' = k then (k', l ++ [o]) :: rest
    else (k', l) :: insertGrouped rest k o

/-- The `targetByKey` grouping of `DeduplicateTargetObjects`. -/
def dedupGroups (ns : String) (isNamespaced : GroupKind → Bool)
    (objs : List (Option Obj)) : List (ResourceKey × List Obj) :=
  (keyedTargets ns isNamespaced objs).foldl (fun gs p => insertGrouped gs p.1 p.2) []

/-- The repeated-resource warning message. -/
def repeatedMsg (k : ResourceKey) (n : Nat) : String :=
  "Resource " ++ (k.toText ++ (" appeared " ++ (toString n ++ " times among application resources.")))

/-- The kept object per key, tagged with its key. -/
def dedupResultKeyed (ns : String) (isNamespaced : GroupKind → Bool)
    (objs : List (Option Obj)) : List (ResourceKey × Obj) :=
  (dedupGroups ns isNamespaced objs).map (fun g => (g.1, g.2.getLastD default))

/-- `DeduplicateTargetObjects`: one object kept per key (the last one
appended to its group) and a repeated-resource warning per key that held
more than one object.  The Go function's error return is constantly nil
and is dropped. -/
def DeduplicateTargetObjects (ns : String) (objs : List (Option Obj))
    (isNamespaced : GroupKind → Bool) : List Obj × List ApplicationCondition :=
  ((dedupResultKeyed ns isNamespaced objs).map (fun g => g.2),
   (dedupGroups ns isNamespaced objs).filterMap (fun g =>
     if g.2.length > 1 then some ⟨.repeatedResourceWarning, repeatedMsg g.1 g.2.length⟩
     else none))

/-- `normalizeClusterScopeTracking` step for one object: a cluster-scoped
object with a non-empty namespace has its namespace cleared and its
tracking metadata re-applied (the tracking setter may fail). -/
def normalizeCSTStep (isNamespaced : GroupKind → Bool)
    (setAppInstance : Obj → Except String Obj) (o? : Option Obj) :
    Option Obj × Option String :=
  match o? with
  | none => (none, none)
  | some o =>
    if !(isNamespaced o.groupKind) then
      if o.ns ≠ "" then
        let o' := { o with ns := "" }
        match setAppInstance o' with
        | .ok o'' => (some o'', none)
        | .error e =>
          (some o', some ("failed to set app instance label on cluster-scoped resource " ++
            (o.gvkText ++ ("/" ++ (o.name ++ (": " ++ e))))))
      else (some o, none)
    else (some o, none)

/-- `normalizeClusterScopeTracking`: iterates from the last index down;
a setter failure aborts the walk (lower indices stay untouched) while the
already-processed suffix keeps its mutations. -/
def normalizeClusterScopeTracking (isNamespaced : GroupKind → Bool)
    (setAppInstance : Obj → Except String Obj) :
    List (Option Obj) → List (Option Obj) × Option String
  | [] => ([], none)
  | o :: rest =>
    let r := normalizeClusterScopeTracking isNamespaced setAppInstance rest
    match r.2 with
    | some e => (o :: r.1, some e)
    | none =>
      let s := normalizeCSTStep isNamespaced setAppInstance o
      (s.1 :: r.1, s.2)

/-! ## Signature gate -/

/-- Outcome classes of `gpg.ParseGitCommitVerification`. -/
inductive GPGVerifyCode where
  | good
  | invalid
  | other
deriving DecidableEq, Repr

/-- A parsed signature verification payload. -/
structure GPGVerifyResult where
  result : GPGVerifyCode
  cipher : String
  keyID : String
  message : String
deriving DecidableEq, Repr

/-- The revision-not-signed comparison error message. -/
def notSignedMsg (revision : String) : String :=
  "Target revision " ++ (revision ++ " in Git is not signed, but a signature is required")

/-- The untrusted-key comparison error message. -/
def untrustedKeyMsg (cipher keyid : String) : String :=
  "Found good signature made with " ++ (cipher ++ (" key " ++ (keyid ++ ", but this key is not allowed in AppProject")))

/-- The invalid-signature comparison error message. -/
def invalidSigMsg (cipher keyid m : String) : String :=
  "Found signature made with " ++ (cipher ++ (" key " ++ (keyid ++ (", but verification result was invalid: '" ++ (m ++ "'")))))

/-- The could-not-verify comparison error message. -/
def couldNotVerifyMsg (revision : String) : String :=
  "Could not verify commit signature on revision '" ++ (revision ++ "', check logs for more information.")

/-- `verifyGnuPGSignature`: checks a render response's verification
payload against the project's trusted keys.  The external GPG parsing and
key-id normalization routines are passed in. -/
def verifyGnuPGSignature (parse : String → GPGVerifyResult) (keyID : String → String)
    (revision : String) (project : AppProject) (mi : ManifestResponse) :
    List ApplicationCondition :=
  if mi.verifyResult ≠ "" then
    let vr := parse mi.verifyResult
    match vr.result with
    | .good =>
      let validKey := project.signatureKeys.any (fun k =>
        decide (keyID k = keyID vr.keyID) && decide (keyID k ≠ ""))
      if validKey then []
      else [⟨.comparisonError, untrustedKeyMsg vr.cipher vr.keyID⟩]
    | .invalid => [⟨.comparisonError, invalidSigMsg vr.cipher vr.keyID vr.message⟩]
    | .other => [⟨.comparisonError, couldNotVerifyMsg revision⟩]
  else
    [⟨.comparisonError, notSignedMsg revision⟩]

/-! ## Diff cache decision -/

/-- `specEqualsCompareTo`: deep-copies the spec, builds the comparable
snapshot on the copy via the externally defined `BuildComparedToStatus`
(modelled as a function returning the possibly-mutated receiver together
with its result) and compares it to the recorded snapshot.  The returned
spec/comparedTo pair is the state of the caller's values after the call. -/
def specEqualsCompareTo
    (buildComparedToStatus : ApplicationSpec → List Source → ApplicationSpec × ComparedTo)
    (spec : ApplicationSpec) (sources : List Source) (comparedTo : ComparedTo) :
    ApplicationSpec × ComparedTo × Bool :=
  let specCopy := spec
  let built := (buildComparedToStatus specCopy sources).2
  (spec, comparedTo, decide (comparedTo = built))

/-- `useDiffCache`: decides whether the cached diff may be reused.  The
application value is threaded through (the Go function receives a pointer)
so that frame effects are statable. -/
def useDiffCache
    (buildComparedToStatus : ApplicationSpec → List Source → ApplicationSpec × ComparedTo)
    (noCache : Bool) (manifestInfos : List ManifestResponse) (sources : List Source)
    (app : Application) (manifestRevisions : List String) (serverSideDiff : Bool) :
    Application × Bool :=
  if noCache then (app, false)
  else if app.refreshRequested then (app, false)
  else if app.statusExpired && !serverSideDiff then (app, false)
  else if manifestInfos.length ≠ sources.length then (app, false)
  else if app.statusGetRevisions ≠ manifestRevisions then (app, false)
  else if !(specEqualsCompareTo buildComparedToStatus app.spec sources app.statusComparedTo).2.2 then
    (app, false)
  else (app, true)

/-! ## Manifest acquisition (`GetRepoObjs`) -/

/-- A destination cluster record. -/
structure Cluster where
  server : String
deriving DecidableEq, Repr

/-- Result of `UpdateRevisionForPaths`. -/
structure UpdateRevisionResult where
  changes : Bool
  revision : String
deriving DecidableEq, Repr

/-- Wrap a string in double quotes (Go's %q verb). -/
def quoted (s : String) : String := "\"" ++ (s ++ "\"")

/-- The repo-server/database collaborators `GetRepoObjs` calls.  Payloads
that are only threaded through (repository lists, credentials, settings
bundles) are represented opaquely. -/
structure RepoEnv where
  listHelmRepositories : Except String (List Unit)
  listOCIRepositories : Except String (List Unit)
  getPermittedRepos : List Unit → Except String (List Unit)
  getAllHelmRepositoryCredentials : Except String (List Unit)
  getAllOCIRepositoryCredentials : Except String (List Unit)
  getPermittedReposCredentials : List Unit → Except String (List Unit)
  getEnabledSourceTypes : Except String Unit
  getKustomizeSettings : Except String Unit
  getHelmSettings : Except String Unit
  getTrackingMethod : Except String String
  getInstallationID : Except String String
  getDestinationCluster : Except String Cluster
  getVersionsInfo : Except String (String × List String)
  newRepoServerClient : Except String Unit
  getRefSources : Except String Unit
  getRepository : Source → Except String Unit
  updateRevisionForPaths : Nat → Source → String → String → Except String UpdateRevisionResult
  generateManifest : Nat → Source → String → Except String ManifestResponse
  parseManifest : String → Except String (Option Obj)

/-- `unmarshalManifests`: parses each manifest string, aborting on the
first failure.  The per-document parser (`UnmarshalToUnstructured`) is
external and passed in. -/
def unmarshalManifests (parse : String → Except String (Option Obj)) :
    List String → Except String (List (Option Obj))
  | [] => .ok []
  | m :: rest =>
    match parse m with
    | .error e => .error e
    | .ok o =>
      match unmarshalManifests parse rest with
      | .error e => .error e
      | .ok os => .ok (o :: os)

/-- The synced revision used for the path-change shortcut of source `i`. -/
def syncedRevisionAt (app : Application) (i : Nat) : String :=
  if app.hasMultipleSources then
    if i < app.statusSyncRevisions.length then app.statusSyncRevisions.getD i "" else ""
  else app.statusSyncRevision

/-- Whether the preliminary path-change check runs for source `src` at
index `i` (it is skipped otherwise). -/
def pathCheckRuns (app : Application) (i : Nat) (src : Source) : Bool :=
  !src.isHelmSrc && !src.isOCISrc && decide (syncedRevisionAt app i ≠ "") &&
    app.manifestGeneratePathsAnn.isSome && decide (app.manifestGeneratePathsAnn.getD "" ≠ "")

/-- The per-source loop of `GetRepoObjs`.  `i` is the absolute source
index, `numSources` the declared source count; out-of-range revision
writes (which would panic in Go) are dropped by `List.set`. -/
def getRepoObjsLoop (env : RepoEnv) (app : Application) (numSources : Nat)
    (i : Nat) (revisions : List String) (targetObjs : List (Option Obj))
    (manifestInfos : List ManifestResponse) (rmhc : Bool) :
    List Source → Except String (List (Option Obj) × List ManifestResponse × Bool)
  | [] => .ok (targetObjs, manifestInfos, rmhc)
  | source :: rest =>
    let revisions' :=
      if revisions.length < numSources || revisions.getD i "" = "" then
        revisions.set i source.targetRevision
      else revisions
    match env.getRepository source with
    | .error e => .error ("failed to get repo " ++ (quoted source.repoURL ++ (": " ++ e)))
    | .ok _ =>
      let revision := revisions'.getD i ""
      let step : Bool → String → Except String (List (Option Obj) × List ManifestResponse × Bool) :=
        fun rmhc' revision' =>
          match env.generateManifest i source revision' with
          | .error e =>
            .error ("failed to generate manifest for source " ++
              (toString (i + 1) ++ (" of " ++ (toString numSources ++ (": " ++ e)))))
          | .ok mi =>
            match unmarshalManifests env.parseManifest mi.manifests with
            | .error e =>
              .error ("failed to unmarshal manifests for source " ++
                (toString (i + 1) ++ (" of " ++ (toString numSources ++ (": " ++ e)))))
            | .ok objs =>
              getRepoObjsLoop env app numSources (i + 1) revisions'
                (targetObjs ++ objs) (manifestInfos ++ [mi]) rmhc' rest
      if pathCheckRuns app i source then
        match env.updateRevisionForPaths i source revision (syncedRevisionAt app i) with
        | .error e =>
          .error ("failed to compare revisions for source " ++
            (toString (i + 1) ++ (" of " ++ (toString numSources ++ (": " ++ e)))))
        | .ok urr =>
          step (if urr.changes then true else rmhc)
            (if urr.revision ≠ "" then urr.revision else revision)
      else
        step true revision

/-- `GetRepoObjs`: resolves permitted repositories/credentials and
settings, then renders each source in order; any failure aborts the whole
acquisition.  Returns the parsed target objects, the per-source manifest
responses and the `revisionsMayHaveChanges` flag. -/
def GetRepoObjs (env : RepoEnv) (app : Application) (sources : List Source)
    (revisions : List String) (proj : AppProject) (sendRuntimeState : Bool) :
    Except String (List (Option Obj) × List ManifestResponse × Bool) :=
  match env.listHelmRepositories with
  | .error e => .error ("failed to list Helm repositories: " ++ e)
  | .ok helmRepos =>
  match env.getPermittedRepos helmRepos with
  | .error e => .error ("failed to get permitted Helm repositories for project " ++ (quoted proj.name ++ (": " ++ e)))
  | .ok _ =>
  match env.listOCIRepositories with
  | .error e => .error ("failed to list OCI repositories: " ++ e)
  | .ok ociRepos =>
  match env.getPermittedRepos ociRepos with
  | .error e => .error ("failed to get permitted OCI repositories for project " ++ (quoted proj.name ++ (": " ++ e)))
  | .ok _ =>
  match env.getAllHelmRepositoryCredentials with
  | .error e => .error ("failed to get Helm credentials: " ++ e)
  | .ok helmCreds =>
  match env.getPermittedReposCredentials helmCreds with
  | .error e => .error ("failed to get permitted Helm credentials for project " ++ (quoted proj.name ++ (": " ++ e)))
  | .ok _ =>
  match env.getAllOCIRepositoryCredentials with
  | .error e => .error ("failed to get OCI credentials: " ++ e)
  | .ok ociCreds =>
  match env.getPermittedReposCredentials ociCreds with
  | .error e => .error ("failed to get permitted OCI credentials for project " ++ (quoted proj.name ++ (": " ++ e)))
  | .ok _ =>
  match env.getEnabledSourceTypes with
  | .error e => .error ("failed to get enabled source types: " ++ e)
  | .ok _ =>
  match env.getKustomizeSettings with
  | .error e => .error ("failed to get Kustomize settings: " ++ e)
  | .ok _ =>
  match env.getHelmSettings with
  | .error e => .error ("failed to get Helm settings: " ++ e)
  | .ok _ =>
  match env.getTrackingMethod with
  | .error e => .error ("failed to get trackingMethod: " ++ e)
  | .ok _ =>
  match env.getInstallationID with
  | .error e => .error ("failed to get installation ID: " ++ e)
  | .ok _ =>
  match env.getDestinationCluster with
  | .error e => .error ("failed to get destination cluster: " ++ e)
  | .ok destCluster =>
  match (if sendRuntimeState then env.getVersionsInfo else .ok ("", [])) with
  | .error e => .error ("failed to get cluster version for cluster " ++ (quoted destCluster.server ++ (": " ++ e)))
  | .ok _ =>
  match env.newRepoServerClient with
  | .error e => .error ("failed to connect to repo server: " ++ e)
  | .ok _ =>
  match env.getRefSources with
  | .error e => .error ("failed to get ref sources: " ++ e)
  | .ok _ =>
    getRepoObjsLoop env app sources.length 0 revisions [] [] false sources

/-! ## Comparison orchestrator (`CompareAppState`) -/

/-- The system-level comparison settings returned by
`getComparisonSettings`: `(appLabelKey, resource overrides, resource
filter, installation id, tracking method)`; overrides are threaded
opaquely and the resource filter is its exclusion predicate
`(group, kind, server) → excluded`. -/
structure ComparisonSettings where
  appLabelKey : String
  isExcludedResource : String → String → String → Bool
  installationID : String
  trackingMethod : String

/-- The per-application repo-error grace period map (`repoErrorCache`),
keyed by application name; the value is the first-seen instant. -/
def CacheMap : Type := String → Option Nat

/-- Store a first-seen instant for `k`. -/
def storeTs (c : CacheMap) (k : String) (t : Nat) : CacheMap :=
  fun n => if n = k then some t else c n

/-- Delete the entry for `k`. -/
def deleteTs (c : CacheMap) (k : String) : CacheMap :=
  fun n => if n = k then none else c n

/-- Controller configuration relevant to a comparison pass. -/
structure ManagerCfg where
  serverSideDiff : Bool
  repoErrorGracePeriod : Nat

/-- The external collaborators of `CompareAppState`, as an environment of
functions: repo objects acquisition (the `GetRepoObjs` call), cluster
cache, settings manager, resource tracking, gitops-engine predicates,
diffing and health evaluation. -/
structure CompareEnv where
  gpgEnabled : Bool
  getComparisonSettings : Except String ComparisonSettings
  getDestinationCluster : Except String Cluster
  getRepoObjs : List Source → List String → Bool → Bool → Bool →
    Except String (List (Option Obj) × List ManifestResponse × Bool)
  unmarshalLocal : List String → Except String (List (Option Obj))
  getClusterCache : Except String (GroupKind → Bool)
  setAppInstance : Obj → Except String Obj
  getManagedLiveObjs : List Obj → Except String (List (ResourceKey × Option Obj))
  isLiveResourcePermitted : Option Obj → Except String Bool
  getAppName : Obj → String
  toUnstructuredNs : String → Except String Obj
  syncNamespaceFn : Option SyncPolicy → Obj → Obj → Except String Obj
  isPostDeleteHook : Obj → Bool
  reconcile : List Obj → List (ResourceKey × Option Obj) → String → (GroupKind → Bool) →
    List (Option Obj × Option Obj)
  ignoreAggregatedRoles : Bool
  appHasAnnotationOption : String → String → Bool
  hasAnnotationOption : Obj → String → String → Bool
  buildComparedToStatus : ApplicationSpec → List Source → ApplicationSpec × ComparedTo
  getGVKParser : Except String Unit
  getSSDApplier : Except String Unit
  stateDiffs : List (Option Obj) → List (Option Obj) → DiffConfigE →
    Except String (List DiffResult)
  isHook : Obj → Bool
  ignoreObj : Obj → Bool
  hookSkip : Obj → Bool
  syncWave : Obj → Int
  unstructuredToAIV : Obj → String → String → AppInstanceValue
  getAppInstance : Obj → String → String → Option AppInstanceValue
  liveIsNamespaced : GroupKind → Bool × Bool
  isGroupKindPermitted : GroupKind → Bool → Bool
  setApplicationHealth : List ManagedResourceRec → List ResourceStatus → Application →
    HealthStatusCode × Option String
  parseGitCommitVerification : String → GPGVerifyResult
  keyID : String → String

/-- The initial sync status built at the top of `CompareAppState`. -/
def buildInitialSyncStatus (app : Application) (revisions : List String)
    (sources : List Source) (hasMultipleSources : Bool) : SyncStatusRec :=
  let comparedTo0 : ComparedTo :=
    { destination := app.spec.destination
      source := default
      sources := []
      ignoreDifferences := app.spec.ignoreDifferences }
  if hasMultipleSources then
    { status := .unknown, revision := "", revisions := revisions
      comparedTo := { comparedTo0 with sources := sources } }
  else
    { status := .unknown, revision := revisions.headD "", revisions := []
      comparedTo := { comparedTo0 with source := sources.headD default } }

/-- The degraded result returned when comparison settings cannot be
loaded (all later phases are skipped; every other field is zero-valued). -/
def earlyUnknownResult (ss : SyncStatusRec) : ComparisonResultE :=
  { syncStatus := ss
    healthStatus := .unknown
    resources := []
    managedResources := []
    conditions := []
    diffConfig := default
    revisionsMayHaveChanges := false
    hasPostDeleteHooks := false
    appSourceType := ""
    appSourceTypes := [] }

/-- Outcome of the target-state acquisition phase: either the sentinel
short-circuit (caller reuses the last known state) or the data to proceed
with. -/
inductive AcqOutcome where
  | sentinel (cache : CacheMap)
  | proceed (cache : CacheMap) (targetObjs : List (Option Obj))
      (manifestInfos : List ManifestResponse) (revisionsMayHaveChanges : Bool)
      (conds : List ApplicationCondition) (failed : Bool)

/-- Target-state acquisition with grace-period suppression of transient
repo errors: a fresh failure records a first-seen instant and returns the
sentinel (when revision caching is in use); a failure within the grace
period returns the sentinel without touching the stored instant; an old
failure or a forced non-cached comparison degrades instead of
short-circuiting; a success deletes the stored instant.  The local
manifest branch refuses local manifests under signature verification. -/
def acquireTargetState (env : CompareEnv) (m : ManagerCfg) (app : Application)
    (revisions : List String) (sources : List Source) (noCache noRevisionCache : Bool)
    (localManifests : List String) (verifySignature : Bool) (cache : CacheMap)
    (now : Nat) : AcqOutcome :=
  if localManifests.isEmpty then
    let revisions' :=
      if revisions.length ≠ sources.length then sources.map (fun s => s.targetRevision)
      else revisions
    match env.getRepoObjs sources revisions' noCache noRevisionCache verifySignature with
    | .error e =>
      let conds : List ApplicationCondition :=
        [⟨.comparisonError, "Failed to load target state: " ++ e⟩]
      match cache app.name with
      | some firstSeen =>
        if now - firstSeen ≤ m.repoErrorGracePeriod && !noRevisionCache then
          .sentinel cache
        else
          .proceed cache [] [] false conds true
      | none =>
        if !noRevisionCache then
          .sentinel (storeTs cache app.name now)
        else
          .proceed cache [] [] false conds true
    | .ok r => .proceed (deleteTs cache app.name) r.1 r.2.1 r.2.2 [] false
  else
    if env.gpgEnabled && verifySignature then
      .proceed cache [] [] false
        [⟨.comparisonError, "Cannot use local manifests when signature verification is required"⟩]
        true
    else
      match env.unmarshalLocal localManifests with
      | .error e =>
        .proceed cache [] [] false
          [⟨.comparisonError, "Failed to load local manifests: " ++ e⟩] true
      | .ok objs => .proceed cache objs [] false [] false

/-- The reverse-order resource-filter walk: drops settings-excluded
resources (emitting an excluded-resource warning each) and detects a
managed namespace already present in the rendered manifests. -/
def exclusionFilter (isExcluded : String → String → String → Bool) (server : String)
    (app : Application) : List Obj → List Obj × List ApplicationCondition × Bool
  | [] => ([], [], false)
  | o :: rest =>
    let r := exclusionFilter isExcluded server app rest
    let excluded := isExcluded o.group o.kind server
    let conds :=
      if excluded then
        r.2.1 ++ [⟨.excludedResourceWarning,
          "Resource " ++ (o.group ++ ("/" ++ (o.kind ++ (" " ++ (o.name ++ " is excluded in the settings")))))⟩]
      else r.2.1
    ((if excluded then r.1 else o :: r.1), conds,
      r.2.2 || isManagedNamespace (some o) app)

/-- The live-object project-permission filter: a lookup error keeps the
entry, records a comparison error and marks the pass failed; a negative
answer drops the entry. -/
def filterPermittedLive (env : CompareEnv) (app : Application) :
    List (ResourceKey × Option Obj) →
    List (ResourceKey × Option Obj) × List ApplicationCondition × Bool
  | [] => ([], [], false)
  | (k, v) :: rest =>
    let r := filterPermittedLive env app rest
    match env.isLiveResourcePermitted v with
    | .error e =>
      ((k, v) :: r.1,
        ⟨.comparisonError,
          "Failed to check if live resource " ++ (quoted k.toText ++ (" is permitted in project " ++
            (quoted app.spec.project ++ (": " ++ e))))⟩ :: r.2.1,
        true)
    | .ok true => ((k, v) :: r.1, r.2.1, r.2.2)
    | .ok false => (r.1, r.2.1, r.2.2)

/-- The walk over live objects that emits shared-resource warnings for
objects tracked by another application and synthesizes a comparison
namespace for a live managed namespace absent from the manifests. -/
def liveMetaLoop (env : CompareEnv) (app : Application) (targetNsExists : Bool) :
    List (Option Obj) → List ApplicationCondition × Bool × List Obj
  | [] => ([], false, [])
  | v? :: rest =>
    let r := liveMetaLoop env app targetNsExists rest
    match v? with
    | none => r
    | some v =>
      let appInstanceName := env.getAppName v
      let sharedConds : List ApplicationCondition :=
        if appInstanceName ≠ "" && appInstanceName ≠ app.instanceName then
          [⟨.sharedResourceWarning,
            v.kind ++ ("/" ++ (v.name ++ (" is part of applications " ++ (app.qualifiedName ++ (" and " ++
              (appInstanceName.replace "_" "/"))))))⟩]
        else []
      if isManagedNamespace (some v) app && !targetNsExists then
        match env.toUnstructuredNs v.name with
        | .error e => (sharedConds ++ (⟨.comparisonError, e⟩ :: r.1), true, r.2.2)
        | .ok managedNs =>
          match env.syncNamespaceFn app.spec.syncPolicy managedNs v with
          | .error e => (sharedConds ++ (⟨.comparisonError, e⟩ :: r.1), true, r.2.2)
          | .ok managedNs' => (sharedConds ++ r.1, r.2.1, managedNs' :: r.2.2)
      else (sharedConds ++ r.1, r.2.1, r.2.2)

/-- Result of classifying one (target, live) pair: the updated aggregate
code, the resource summary, the managed-resource record and any
invalid-spec conditions. -/
structure ClassifiedPair where
  syncCode : SyncStatusCode
  res : ResourceStatus
  mr : ManagedResourceRec
  conds : List ApplicationCondition
deriving Repr

/-- Classification of one reconciled pair (the loop body of
`CompareAppState`): hooks, ignored, hook-skipped and non-self-referenced
resources contribute nothing; otherwise the pair is OutOfSync when the
diff is modified or one side is missing (a prune-eligible pair carrying
the IgnoreExtraneous option does not flip the aggregate) and Synced
otherwise; a non-permitted group-kind forces Unknown; a failed load
forces Unknown last.  A pair with both sides nil keeps its zero-valued
entries (Go's `continue` over pre-sized slices). -/
def classifyPair (env : CompareEnv) (st : ComparisonSettings) (app : Application)
    (failed : Bool) (syncCode : SyncStatusCode) (t l : Option Obj) (d : DiffResult) :
    ClassifiedPair :=
  let obj? := match l with
    | some _ => l
    | none => t
  match obj? with
  | none => { syncCode := syncCode, res := default, mr := default, conds := [] }
  | some obj =>
    let gk := obj.groupKind
    let selfRef := managerIsSelfReferencedObj env.unstructuredToAIV env.getAppInstance
      l t app.name st.trackingMethod st.installationID
    let hook := env.isHook obj
    let rdc :=
      (match t with
       | some tObj => env.hasAnnotationOption tObj annotationSyncOptions syncOptionDeleteRequireConfirm
       | none => false) ||
      (match l with
       | some lObj => env.hasAnnotationOption lObj annotationSyncOptions syncOptionDeleteRequireConfirm
       | none => false)
    let resState0 : ResourceStatus :=
      { group := obj.group, version := obj.version, kind := obj.kind, ns := obj.ns
        name := obj.name, status := .unset, hook := hook
        requiresPruning := t.isNone && l.isSome && selfRef
        requiresDeletionConfirmation := rdc
        syncWave := match t with
          | some tObj => env.syncWave tObj
          | none => 0 }
    let isManagedNs := isManagedNamespace t app && l.isNone
    let skip := hook || env.ignoreObj obj ||
      (match t with
       | some tObj => env.hookSkip tObj
       | none => false) || !selfRef
    let stPair : SyncStatusCode × SyncStatusCode :=
      if skip then (.unset, syncCode)
      else if !isManagedNs && (d.modified || t.isNone || l.isNone) then
        let needsPruning := t.isNone && l.isSome
        (.outOfSync,
          if !needsPruning || !(env.hasAnnotationOption obj annotationCompareOptions "IgnoreExtraneous") then
            .outOfSync
          else syncCode)
      else (.synced, syncCode)
    let nsInfo := env.liveIsNamespaced gk
    let status2 := if !(env.isGroupKindPermitted gk (nsInfo.1 && nsInfo.2)) then .unknown else stPair.1
    let invalidConds : List ApplicationCondition :=
      if nsInfo.1 && decide (obj.ns = "") then
        [⟨.invalidSpecError, "Namespace for " ++ (obj.name ++ (" " ++ (obj.gvkText ++ " is missing.")))⟩]
      else []
    let status3 := if failed then .unknown else status2
    { syncCode := stPair.2
      res := { resState0 with status := status3 }
      mr :=
        { target := t, live := l, diff := d, group := obj.group, version := obj.version
          kind := obj.kind, ns := obj.ns, name := obj.name, hook := hook
          resourceVersion := match l with
            | some lObj => lObj.resourceVersion
            | none => "" }
      conds := invalidConds }

/-- The classification loop over the index-aligned reconciliation lists,
threading the aggregate code (initially Synced). -/
def classifyFold (env : CompareEnv) (st : ComparisonSettings) (app : Application)
    (failed : Bool) (diffs : List DiffResult) (i : Nat) (syncCode : SyncStatusCode) :
    List (Option Obj × Option Obj) →
    SyncStatusCode × List ResourceStatus × List ManagedResourceRec × List ApplicationCondition
  | [] => (syncCode, [], [], [])
  | (t, l) :: rest =>
    let c := classifyPair env st app failed syncCode t l (diffs.getD i emptyDiffResult)
    let r := classifyFold env st app failed diffs (i + 1) c.syncCode rest
    (r.1, c.res :: r.2.1, c.mr :: r.2.2.1, c.conds ++ r.2.2.2)

/-- The final aggregate verdict: a failed load forces Unknown; otherwise
changed managed-namespace metadata forces OutOfSync. -/
def finalSyncCode (failed : Bool) (hasChangedMNM : Bool) (syncCode : SyncStatusCode) :
    SyncStatusCode :=
  if failed then .unknown
  else if hasChangedMNM then .outOfSync
  else syncCode

/-- Everything `CompareAppState` does from the live-state permission
filter to assembling the result: shared-resource accounting, managed
namespace synthesis, reconciliation, diff configuration and execution,
per-resource classification, final verdict, health and the signature
gate. -/
def compareTail (env : CompareEnv) (m : ManagerCfg) (app : Application)
    (project : AppProject) (st : ComparisonSettings) (syncStatus0 : SyncStatusRec)
    (verifySignature : Bool) (noCache : Bool) (sources : List Source)
    (hasMultipleSources : Bool) (infoProvider : GroupKind → Bool)
    (targetObjs : List Obj) (targetNsExists : Bool)
    (manifestInfos : List ManifestResponse) (rmhc : Bool)
    (conds0 : List ApplicationCondition) (failed0 : Bool)
    (liveObjs : List (ResourceKey × Option Obj)) : ComparisonResultE :=
  let pf := filterPermittedLive env app liveObjs
  let lives := pf.1
  let lm := liveMetaLoop env app targetNsExists (lives.map (fun p => p.2))
  let targetObjs1 := targetObjs ++ lm.2.2
  let hasPostDeleteHooks := targetObjs1.any env.isPostDeleteHook
  let pairs := env.reconcile targetObjs1 lives app.spec.destination.ns infoProvider
  let manifestRevisions := manifestInfos.map (fun mi => mi.revision)
  let serverSideDiff0 := m.serverSideDiff ||
    env.appHasAnnotationOption annotationCompareOptions "ServerSideDiff=true"
  let serverSideDiff :=
    if env.appHasAnnotationOption annotationCompareOptions "ServerSideDiff=false" then false
    else serverSideDiff0
  let useCache := (useDiffCache env.buildComparedToStatus noCache manifestInfos sources app
    manifestRevisions serverSideDiff).2
  let gvkConds : List ApplicationCondition :=
    match env.getGVKParser with
    | .error e => [⟨.unknownError, e⟩]
    | .ok _ => []
  let ssdConds : List ApplicationCondition :=
    if serverSideDiff then
      match env.getSSDApplier with
      | .error e => [⟨.unknownError, e⟩]
      | .ok _ => []
    else []
  let structuredMergeDiff :=
    match app.spec.syncPolicy with
    | some sp => sp.syncOptions.contains "ServerSideApply=true"
    | none => false
  let diffConfig : DiffConfigE :=
    { useCache := useCache, serverSideDiff := serverSideDiff
      structuredMergeDiff := structuredMergeDiff
      ignoreMutationWebhook :=
        !(env.appHasAnnotationOption annotationCompareOptions "IncludeMutationWebhook=true") }
  let dr : Bool × List DiffResult × List ApplicationCondition :=
    match env.stateDiffs (pairs.map (fun p => p.2)) (pairs.map (fun p => p.1)) diffConfig with
    | .error e =>
      (true, [], [⟨.comparisonError, "Failed to compare desired state to live state: " ++ e⟩])
    | .ok ds => (false, ds, [])
  let failed := failed0 || pf.2.2 || lm.2.1 || dr.1
  let cl := classifyFold env st app failed dr.2.1 0 .synced pairs
  let syncCode := finalSyncCode failed app.hasChangedManagedNamespaceMetadata cl.1
  let syncStatus : SyncStatusRec :=
    { syncStatus0 with
      status := syncCode
      revisions := if hasMultipleSources then manifestRevisions else syncStatus0.revisions
      revision :=
        if hasMultipleSources then syncStatus0.revision
        else if manifestRevisions.length > 0 then manifestRevisions.headD ""
        else syncStatus0.revision }
  let health := env.setApplicationHealth cl.2.2.1 cl.2.1 app
  let healthConds : List ApplicationCondition :=
    match health.2 with
    | some e => [⟨.comparisonError, "error setting app health: " ++ e⟩]
    | none => []
  let gpgConds := (manifestInfos.map (fun mi =>
    if env.gpgEnabled && verifySignature then
      verifyGnuPGSignature env.parseGitCommitVerification env.keyID mi.revision project mi
    else [])).flatten
  { syncStatus := syncStatus
    healthStatus := health.1
    resources := cl.2.1
    managedResources := cl.2.2.1
    conditions := conds0 ++ pf.2.1 ++ lm.1 ++ gvkConds ++ ssdConds ++ dr.2.2 ++ cl.2.2.2 ++
      healthConds ++ gpgConds
    diffConfig := diffConfig
    revisionsMayHaveChanges := rmhc
    hasPostDeleteHooks := hasPostDeleteHooks
    appSourceType :=
      if hasMultipleSources then ""
      else
        match manifestInfos.head? with
        | some mi => mi.sourceType
        | none => ""
    appSourceTypes :=
      if hasMultipleSources then manifestInfos.map (fun mi => mi.sourceType) else [] }

/-- The phases of `CompareAppState` between acquisition and the live
state load: tracking normalization, deduplication, settings-level
resource exclusion, then the live-object fetch (whose failure degrades to
an empty live map and marks the pass failed). -/
def comparePostAcquire (env : CompareEnv) (m : ManagerCfg) (app : Application)
    (project : AppProject) (st : ComparisonSettings) (dc : Cluster)
    (syncStatus0 : SyncStatusRec) (verifySignature : Bool) (noCache : Bool)
    (sources : List Source) (hasMultipleSources : Bool)
    (targetObjs0 : List (Option Obj)) (manifestInfos : List ManifestResponse)
    (rmhc : Bool) (acqConds : List ApplicationCondition) (acqFailed : Bool) :
    ComparisonResultE :=
  let infoProvider :=
    match env.getClusterCache with
    | .ok p => p
    | .error _ => fun _ => false
  let norm := normalizeClusterScopeTracking infoProvider env.setAppInstance targetObjs0
  let normConds : List ApplicationCondition :=
    match norm.2 with
    | some e => [⟨.comparisonError, "Failed to normalize cluster-scoped resource tracking: " ++ e⟩]
    | none => []
  let dd := DeduplicateTargetObjects app.spec.destination.ns norm.1 infoProvider
  let ex := exclusionFilter st.isExcludedResource dc.server app dd.1
  let conds0 := acqConds ++ normConds ++ dd.2 ++ ex.2.1
  match env.getManagedLiveObjs ex.1 with
  | .error e =>
    compareTail env m app project st syncStatus0 verifySignature noCache sources
      hasMultipleSources infoProvider ex.1 ex.2.2 manifestInfos rmhc
      (conds0 ++ [⟨.comparisonError, "Failed to load live state: " ++ e⟩]) true []
  | .ok lives =>
    compareTail env m app project st syncStatus0 verifySignature noCache sources
      hasMultipleSources infoProvider ex.1 ex.2.2 manifestInfos rmhc conds0 acqFailed lives

/-- `CompareAppState`: the comparison orchestrator.  Returns the updated
grace-period map together with either an error (raw destination-cluster
failure or the `ErrCompareStateRepo` sentinel) or the assembled
comparison result. -/
def CompareAppState (env : CompareEnv) (m : ManagerCfg) (app : Application)
    (project : AppProject) (revisions : List String) (sources : List Source)
    (noCache noRevisionCache : Bool) (localManifests : List String)
    (hasMultipleSources : Bool) (cache : CacheMap) (now : Nat) :
    CacheMap × Except CompareErr ComparisonResultE :=
  let syncStatus0 := buildInitialSyncStatus app revisions sources hasMultipleSources
  match env.getComparisonSettings with
  | .error _ => (cache, .ok (earlyUnknownResult syncStatus0))
  | .ok st =>
    let verifySignature := decide (project.signatureKeys ≠ []) && env.gpgEnabled
    match env.getDestinationCluster with
    | .error e => (cache, .error (.destErr e))
    | .ok dc =>
      match acquireTargetState env m app revisions sources noCache noRevisionCache
        localManifests verifySignature cache now with
      | .sentinel cache' => (cache', .error .repoSentinel)
      | .proceed cache' objs infos rmhc acqConds acqFailed =>
        (cache', .ok (comparePostAcquire env m app project st dc syncStatus0 verifySignature
          noCache sources hasMultipleSources objs infos rmhc acqConds acqFailed))

/-! ## Concrete fixtures used to exercise the definitions -/

def fixDestination : Destination := ⟨"https://kubernetes.default.svc", "default"⟩

def fixSource : Source := ⟨"https://git.example.com/repo.git", "HEAD", "app", "", false, false⟩

def fixSpec : ApplicationSpec := ⟨"default", fixDestination, some fixSource, [], [], none⟩

def fixComparedTo : ComparedTo := ⟨fixDestination, fixSource, [], []⟩

def fixApp : Application :=
  ⟨"guestbook", "argocd/guestbook", "guestbook", fixSpec, "", [], [], fixComparedTo,
    false, false, false, none⟩

def fixProject : AppProject := ⟨"default", ["DEADBEEF"], ["*"]⟩

def fixSettings : ComparisonSettings :=
  ⟨"app.kubernetes.io/instance", fun _ _ _ => false, "", "annotation"⟩

def fixBuildComparedTo : ApplicationSpec → List Source → ApplicationSpec × ComparedTo :=
  fun sp srcs => (sp, ⟨sp.destination, sp.source.getD default, srcs, sp.ignoreDifferences⟩)

def fixObj : Obj := ⟨"apps", "v1", "Deployment", "default", "web", "", "1"⟩

def baseEnv : CompareEnv :=
  { gpgEnabled := true
    getComparisonSettings := .ok fixSettings
    getDestinationCluster := .ok ⟨"https://kubernetes.default.svc"⟩
    getRepoObjs := fun _ _ _ _ _ => .ok ([], [], false)
    unmarshalLocal := fun _ => .ok []
    getClusterCache := .ok (fun _ => true)
    setAppInstance := fun o => .ok o
    getManagedLiveObjs := fun _ => .ok []
    isLiveResourcePermitted := fun _ => .ok true
    getAppName := fun _ => ""
    toUnstructuredNs := fun n =>
      .ok { group := "", version := "v1", kind := "Namespace", ns := "", name := n
            generateName := "", resourceVersion := "" }
    syncNamespaceFn := fun _ mns _ => .ok mns
    isPostDeleteHook := fun _ => false
    reconcile := fun _ _ _ _ => []
    ignoreAggregatedRoles := false
    appHasAnnotationOption := fun _ _ => false
    hasAnnotationOption := fun _ _ _ => false
    buildComparedToStatus := fixBuildComparedTo
    getGVKParser := .ok ()
    getSSDApplier := .ok ()
    stateDiffs := fun _ _ _ => .ok []
    isHook := fun _ => false
    ignoreObj := fun _ => false
    hookSkip := fun _ => false
    syncWave := fun _ => 0
    unstructuredToAIV := fun c appName _ => ⟨appName, c.group, c.kind, c.ns, c.name⟩
    getAppInstance := fun _ _ _ => none
    liveIsNamespaced := fun _ => (true, true)
    isGroupKindPermitted := fun _ _ => true
    setApplicationHealth := fun _ _ _ => (.healthy, none)
    parseGitCommitVerification := fun _ => ⟨.other, "", "", ""⟩
    keyID := fun s => s }

def baseMgr : ManagerCfg := ⟨false, 180⟩

def emptyCache : CacheMap := fun _ => none

def baseRepoEnv : RepoEnv :=
  { listHelmRepositories := .ok []
    listOCIRepositories := .ok []
    getPermittedRepos := fun l => .ok l
    getAllHelmRepositoryCredentials := .ok []
    getAllOCIRepositoryCredentials := .ok []
    getPermittedReposCredentials := fun l => .ok l
    getEnabledSourceTypes := .ok ()
    getKustomizeSettings := .ok ()
    getHelmSettings := .ok ()
    getTrackingMethod := .ok "annotation"
    getInstallationID := .ok ""
    getDestinationCluster := .ok ⟨"https://kubernetes.default.svc"⟩
    getVersionsInfo := .ok ("1.31", [])
    newRepoServerClient := .ok ()
    getRefSources := .ok ()
    getRepository := fun _ => .ok ()
    updateRevisionForPaths := fun _ _ _ _ => .ok ⟨false, ""⟩
    generateManifest := fun _ _ _ => .ok ⟨[], "1.2.3", "Helm", ""⟩
    parseManifest := fun _ => .ok (some fixObj) }

def c6Info : ManifestResponse := ⟨[], "abc123", "Git", ""⟩

def c6Env : CompareEnv :=
  { baseEnv with getRepoObjs := fun _ _ _ _ _ => .ok ([], [c6Info], false) }

def c1DiffEnv : CompareEnv :=
  { baseEnv with stateDiffs := fun _ _ _ => .error "diff engine down" }

/-! ## Helper lemmas -/

theorem countCond_nil (c : ApplicationCondition) : countCond [] c = 0 := rfl

theorem countCond_cons (x : ApplicationCondition) (l : List ApplicationCondition)
    (c : ApplicationCondition) :
    countCond (x :: l) c = (if x = c then 1 else 0) + countCond l c := by
  by_cases h : x = c <;> simp [countCond, List.filter, h, Nat.add_comm]

theorem countCond_append (l₁ l₂ : List ApplicationCondition) (c : ApplicationCondition) :
    countCond (l₁ ++ l₂) c = countCond l₁ c + countCond l₂ c := by
  simp [countCond, List.filter_append]

/-- Two string concatenations with literal heads beginning in different
characters are different. -/
theorem append_ne_of_head_ne (a b x y : String) (c d : Char)
    (hc : a.data.head? = some c) (hd : b.data.head? = some d) (hcd : c ≠ d) :
    a ++ x ≠ b ++ y := by
  intro h
  have hdata := congrArg String.data h
  rw [String.data_append, String.data_append] at hdata
  cases ha : a.data with
  | nil => rw [ha] at hc; simp at hc
  | cons c' as =>
    cases hb : b.data with
    | nil => rw [hb] at hd; simp at hd
    | cons d' bs =>
      rw [ha] at hc; rw [hb] at hd
      simp at hc hd
      rw [ha, hb] at hdata
      simp at hdata
      exact hcd (hc ▸ hd ▸ hdata.1)

/-! ## Claim theorems -/

/-- C9: if loading the comparison settings fails, `CompareAppState` returns
immediately with a result whose aggregate sync status and health status are
both Unknown and with every later-phase field zero-valued, and leaves the
grace-period map untouched: no acquisition, normalization, live load, diff
or classification contributes to the result. -/
theorem C9_settings_failure_aborts (env : CompareEnv) (m : ManagerCfg)
    (app : Application) (project : AppProject) (revisions : List String)
    (sources : List Source) (noCache noRevisionCache : Bool)
    (localManifests : List String) (hasMultipleSources : Bool) (cache : CacheMap)
    (now : Nat) (e : String) (hset : env.getComparisonSettings = .error e) :
    CompareAppState env m app project revisions sources noCache noRevisionCache
        localManifests hasMultipleSources cache now =
      (cache, .ok (earlyUnknownResult
        (buildInitialSyncStatus app revisions sources hasMultipleSources))) ∧
    (earlyUnknownResult
        (buildInitialSyncStatus app revisions sources hasMultipleSources)).syncStatus.status =
      .unknown ∧
    (earlyUnknownResult
        (buildInitialSyncStatus app revisions sources hasMultipleSources)).healthStatus =
      .unknown := by
  refine ⟨?_, ?_, rfl⟩
  · unfold CompareAppState
    rw [hset]
  · unfold earlyUnknownResult buildInitialSyncStatus
    cases hasMultipleSources <;> rfl

/-- C9 witness. -/
theorem C9_settings_failure_aborts_witness :
    CompareAppState { baseEnv with getComparisonSettings := .error "config map missing" }
        baseMgr fixApp fixProject ["r1"] [fixSource] false false [] false emptyCache 0 =
      (emptyCache, .ok (earlyUnknownResult
        (buildInitialSyncStatus fixApp ["r1"] [fixSource] false))) ∧
    (earlyUnknownResult (buildInitialSyncStatus fixApp ["r1"] [fixSource] false)).syncStatus.status =
      .unknown ∧
    (earlyUnknownResult (buildInitialSyncStatus fixApp ["r1"] [fixSource] false)).healthStatus =
      .unknown :=
  C9_settings_failure_aborts _ baseMgr fixApp fixProject ["r1"] [fixSource] false false [] false
    emptyCache 0 "config map missing" rfl

/-- C10: `specEqualsCompareTo` (and the cache-use decision that calls it)
returns its spec and comparedTo inputs unchanged, whatever the external
snapshot builder does to its receiver copy. -/
theorem C10_specEqualsCompareTo_frame
    (buildFn : ApplicationSpec → List Source → ApplicationSpec × ComparedTo)
    (spec : ApplicationSpec) (sources : List Source) (comparedTo : ComparedTo)
    (noCache : Bool) (manifestInfos : List ManifestResponse) (app : Application)
    (manifestRevisions : List String) (serverSideDiff : Bool) :
    (specEqualsCompareTo buildFn spec sources comparedTo).1 = spec ∧
    (specEqualsCompareTo buildFn spec sources comparedTo).2.1 = comparedTo ∧
    (useDiffCache buildFn noCache manifestInfos sources app manifestRevisions
        serverSideDiff).1 = app := by
  refine ⟨rfl, rfl, ?_⟩
  unfold useDiffCache
  split_ifs <;> rfl

/-- C2: `useDiffCache` answers false whenever caching is disabled, a
refresh was requested, the resolved revisions differ from the recorded
ones, or the declared spec differs from the compared-to snapshot; and it
answers true exactly when none of those hold, the manifest response count
matches the source count, and the status is not expired or server-side
diff is enabled. -/
theorem C2_useDiffCache_decision
    (buildFn : ApplicationSpec → List Source → ApplicationSpec × ComparedTo)
    (noCache : Bool) (manifestInfos : List ManifestResponse) (sources : List Source)
    (app : Application) (manifestRevisions : List String) (serverSideDiff : Bool) :
    ((noCache = true ∨ app.refreshRequested = true ∨
        app.statusGetRevisions ≠ manifestRevisions ∨
        (specEqualsCompareTo buildFn app.spec sources app.statusComparedTo).2.2 = false) →
      (useDiffCache buildFn noCache manifestInfos sources app manifestRevisions
          serverSideDiff).2 = false) ∧
    ((useDiffCache buildFn noCache manifestInfos sources app manifestRevisions
        serverSideDiff).2 = true ↔
      (noCache = false ∧ app.refreshRequested = false ∧
        app.statusGetRevisions = manifestRevisions ∧
        (specEqualsCompareTo buildFn app.spec sources app.statusComparedTo).2.2 = true ∧
        manifestInfos.length = sources.length ∧
        (app.statusExpired = false ∨ serverSideDiff = true))) := by
  unfold useDiffCache
  constructor
  · intro h
    split_ifs with h1 h2 h3 h4 h5 h6 <;> try rfl
    exfalso
    rcases h with h | h | h | h
    · exact h1 h
    · simp [h] at h2
    · exact h (by simpa using h5)
    · simp [h] at h6
  · split_ifs with h1 h2 h3 h4 h5 h6 <;> simp_all
    cases hx : app.statusExpired with
    | false => exact Or.inl rfl
    | true => exact Or.inr (h3 hx)

/-- C2 witness. -/
theorem C2_useDiffCache_decision_witness :
    (useDiffCache fixBuildComparedTo true [] [] fixApp [] false).2 = false :=
  (C2_useDiffCache_decision fixBuildComparedTo true [] [] fixApp [] false).1 (Or.inl rfl)

/-- C4: the manager-level self-reference check returns true for a nil live
object and under label tracking; otherwise, with the identity tuple taken
from the desired-state object when present and else from the live object's
tracking annotation, it returns true exactly when the live object's name,
group and kind match the tuple and its namespace matches or is empty. -/
theorem C4_isSelfReferencedObj_spec
    (unstructuredToAIV : Obj → String → String → AppInstanceValue)
    (getAppInstance : Obj → String → String → Option AppInstanceValue)
    (live config : Option Obj) (appName trackingMethod installationID : String) :
    (live = none →
      managerIsSelfReferencedObj unstructuredToAIV getAppInstance live config appName
        trackingMethod installationID = true) ∧
    (trackingMethod = trackingMethodLabel →
      managerIsSelfReferencedObj unstructuredToAIV getAppInstance live config appName
        trackingMethod installationID = true) ∧
    (∀ l aiv, live = some l → trackingMethod ≠ trackingMethodLabel →
      ((∃ c, config = some c ∧ aiv = unstructuredToAIV c appName "") ∨
        (config = none ∧ getAppInstance l trackingMethod installationID = some aiv)) →
      (managerIsSelfReferencedObj unstructuredToAIV getAppInstance live config appName
          trackingMethod installationID = true ↔
        (l.name = aiv.name ∧ l.group = aiv.group ∧ l.kind = aiv.kind ∧
          (l.ns = aiv.ns ∨ l.ns = "")))) := by
  refine ⟨?_, ?_, ?_⟩
  · intro h
    rw [h]
    rfl
  · intro h
    unfold managerIsSelfReferencedObj
    cases live with
    | none => rfl
    | some l => simp [h]
  · rintro l aiv hl hm (⟨c, hc, haiv⟩ | ⟨hc, hga⟩) <;> subst hl <;> subst hc
    · subst haiv
      simp [managerIsSelfReferencedObj, hm, isSelfReferencedObj]
      tauto
    · simp [managerIsSelfReferencedObj, hm, hga, isSelfReferencedObj]
      tauto

/-- C4 witness. -/
theorem C4_isSelfReferencedObj_spec_witness :
    managerIsSelfReferencedObj baseEnv.unstructuredToAIV baseEnv.getAppInstance
        (some fixObj) (some fixObj) "guestbook" "annotation" "" = true ↔
      (fixObj.name = (baseEnv.unstructuredToAIV fixObj "guestbook" "").name ∧
        fixObj.group = (baseEnv.unstructuredToAIV fixObj "guestbook" "").group ∧
        fixObj.kind = (baseEnv.unstructuredToAIV fixObj "guestbook" "").kind ∧
        (fixObj.ns = (baseEnv.unstructuredToAIV fixObj "guestbook" "").ns ∨ fixObj.ns = "")) :=
  (C4_isSelfReferencedObj_spec baseEnv.unstructuredToAIV baseEnv.getAppInstance
      (some fixObj) (some fixObj) "guestbook" "annotation" "").2.2 fixObj
    (baseEnv.unstructuredToAIV fixObj "guestbook" "") rfl (by decide)
    (Or.inl ⟨fixObj, rfl, rfl⟩)

/-- C5: with revision caching in use (`noRevisionCache = false`), the
first target-state acquisition failure for an application records a
first-seen instant under the application's name and returns the
`ErrCompareStateRepo` sentinel instead of the raw error; a failure while
a recorded instant is within the grace period returns the sentinel with
the map unchanged; a successful acquisition deletes the recorded
instant. -/
theorem C5_repo_error_grace_period (env : CompareEnv) (m : ManagerCfg)
    (app : Application) (project : AppProject) (revisions : List String)
    (sources : List Source) (noCache : Bool) (hasMultipleSources : Bool)
    (cache : CacheMap) (now : Nat) (st : ComparisonSettings) (dc : Cluster)
    (e : String)
    (hset : env.getComparisonSettings = .ok st)
    (hdc : env.getDestinationCluster = .ok dc) :
    ((∀ revs nc nrc vs, env.getRepoObjs sources revs nc nrc vs = .error e) →
      cache app.name = none →
      CompareAppState env m app project revisions sources noCache false [] hasMultipleSources
          cache now =
        (storeTs cache app.name now, .error .repoSentinel)) ∧
    (∀ t, (∀ revs nc nrc vs, env.getRepoObjs sources revs nc nrc vs = .error e) →
      cache app.name = some t → now - t ≤ m.repoErrorGracePeriod →
      CompareAppState env m app project revisions sources noCache false [] hasMultipleSources
          cache now =
        (cache, .error .repoSentinel)) ∧
    (∀ r noRevisionCache,
      (∀ revs nc nrc vs, env.getRepoObjs sources revs nc nrc vs = .ok r) →
      (CompareAppState env m app project revisions sources noCache noRevisionCache []
          hasMultipleSources cache now).1 = deleteTs cache app.name) := by
  refine ⟨?_, ?_, ?_⟩
  · intro hrepo hnone
    simp only [CompareAppState, acquireTargetState, hset, hdc, hrepo, hnone, List.isEmpty,
      if_true, Bool.not_false, Bool.and_true]
  · intro t hrepo hsome hgrace
    simp only [CompareAppState, acquireTargetState, hset, hdc, hrepo, hsome, List.isEmpty,
      if_true, Bool.not_false, Bool.and_true]
    simp [hgrace]
  · intro r noRevisionCache hrepo
    simp only [CompareAppState, acquireTargetState, hset, hdc, hrepo, List.isEmpty, if_true]

/-- C5 witness. -/
theorem C5_repo_error_grace_period_witness :
    CompareAppState
        { baseEnv with getRepoObjs := fun _ _ _ _ _ => .error "connection refused" }
        baseMgr fixApp fixProject ["r1"] [fixSource] false false [] false emptyCache 7 =
      (storeTs emptyCache fixApp.name 7, .error .repoSentinel) :=
  (C5_repo_error_grace_period
      { baseEnv with getRepoObjs := fun _ _ _ _ _ => .error "connection refused" }
      baseMgr fixApp fixProject ["r1"] [fixSource] false false emptyCache 7 fixSettings
      ⟨"https://kubernetes.default.svc"⟩ "connection refused" rfl rfl).1
    (fun _ _ _ _ => rfl) rfl

/-- Under a failed load, a classified pair with at least one side present
gets sync status Unknown. -/
theorem classifyPair_failed_unknown (env : CompareEnv) (st : ComparisonSettings)
    (app : Application) (sc : SyncStatusCode) (t l : Option Obj) (d : DiffResult)
    (h : t.isSome ∨ l.isSome) :
    (classifyPair env st app true sc t l d).res.status = .unknown := by
  cases t <;> cases l
  · simp at h
  all_goals rfl

/-- Under a failed load, every summary produced by the classification loop
over pairs with at least one side present has sync status Unknown. -/
theorem classifyFold_failed_unknown (env : CompareEnv) (st : ComparisonSettings)
    (app : Application) (diffs : List DiffResult) :
    ∀ (pairs : List (Option Obj × Option Obj)) (i : Nat) (sc : SyncStatusCode),
      (∀ p ∈ pairs, p.1.isSome ∨ p.2.isSome) →
      ∀ r ∈ (classifyFold env st app true diffs i sc pairs).2.1, r.status = .unknown := by
  intro pairs
  induction pairs with
  | nil => intro i sc _ r hr; simp [classifyFold] at hr
  | cons p rest ih =>
    intro i sc h r hr
    obtain ⟨t, l⟩ := p
    simp only [classifyFold] at hr
    rcases List.mem_cons.mp hr with h1 | h2
    · rw [h1]
      exact classifyPair_failed_unknown env st app sc t l _ (h (t, l) (List.mem_cons_self _ _))
    · exact ih (i + 1) _ (fun q hq => h q (List.mem_cons_of_mem _ hq)) r h2

/-- With the failed-load flag raised on entry, `compareTail` produces an
Unknown aggregate verdict and an Unknown sync status on every per-resource
summary (given the reconciliation invariant that no pair is doubly nil). -/
theorem compareTail_failed_unknown (env : CompareEnv) (m : ManagerCfg)
    (app : Application) (project : AppProject) (st : ComparisonSettings)
    (syncStatus0 : SyncStatusRec) (verifySignature : Bool) (noCache : Bool)
    (sources : List Source) (hasMultipleSources : Bool) (infoProvider : GroupKind → Bool)
    (targetObjs : List Obj) (targetNsExists : Bool)
    (manifestInfos : List ManifestResponse) (rmhc : Bool)
    (conds0 : List ApplicationCondition)
    (liveObjs : List (ResourceKey × Option Obj))
    (hrec : ∀ a b c d, ∀ p ∈ env.reconcile a b c d, p.1.isSome ∨ p.2.isSome) :
    (compareTail env m app project st syncStatus0 verifySignature noCache sources
        hasMultipleSources infoProvider targetObjs targetNsExists manifestInfos rmhc
        conds0 true liveObjs).syncStatus.status = .unknown ∧
    ∀ r ∈ (compareTail env m app project st syncStatus0 verifySignature noCache sources
        hasMultipleSources infoProvider targetObjs targetNsExists manifestInfos rmhc
        conds0 true liveObjs).resources, r.status = .unknown := by
  constructor
  · simp only [compareTail, Bool.true_or, finalSyncCode, if_true]
  · simp only [compareTail, Bool.true_or]
    exact classifyFold_failed_unknown env st app _ _ 0 .synced (hrec _ _ _ _)

/-- With every diff computation failing, `compareTail` raises the
failed-load flag itself (whatever flag value it entered with) and
produces an Unknown aggregate verdict and an Unknown sync status on
every per-resource summary (given the reconciliation invariant that no
pair is doubly nil). -/
theorem compareTail_diff_failed_unknown (env : CompareEnv) (m : ManagerCfg)
    (app : Application) (project : AppProject) (st : ComparisonSettings)
    (syncStatus0 : SyncStatusRec) (verifySignature : Bool) (noCache : Bool)
    (sources : List Source) (hasMultipleSources : Bool) (infoProvider : GroupKind → Bool)
    (targetObjs : List Obj) (targetNsExists : Bool)
    (manifestInfos : List ManifestResponse) (rmhc : Bool)
    (conds0 : List ApplicationCondition) (failed0 : Bool)
    (liveObjs : List (ResourceKey × Option Obj)) (e : String)
    (hrec : ∀ a b c d, ∀ p ∈ env.reconcile a b c d, p.1.isSome ∨ p.2.isSome)
    (hdiff : ∀ a b c, env.stateDiffs a b c = .error e) :
    (compareTail env m app project st syncStatus0 verifySignature noCache sources
        hasMultipleSources infoProvider targetObjs targetNsExists manifestInfos rmhc
        conds0 failed0 liveObjs).syncStatus.status = .unknown ∧
    ∀ r ∈ (compareTail env m app project st syncStatus0 verifySignature noCache sources
        hasMultipleSources infoProvider targetObjs targetNsExists manifestInfos rmhc
        conds0 failed0 liveObjs).resources, r.status = .unknown := by
  constructor
  · simp only [compareTail, hdiff, Bool.or_true, finalSyncCode, if_true]
  · simp only [compareTail, hdiff, Bool.or_true]
    exact classifyFold_failed_unknown env st app _ _ 0 .synced (hrec _ _ _ _)

/-- C1: whenever the failed-to-load flag is raised during a pass, the
final aggregate verdict and every per-resource sync status are Unknown.
Part one states it for the tail of `CompareAppState` entered with the
flag already raised (as a target-state or live-state load failure raises
it); part two states it when the flag is raised inside the tail by a
failing diff computation, whatever flag value the tail entered with;
parts three and four run `CompareAppState` end to end through a
live-state load failure and through a diff computation failure.  All
parts take the reconciliation invariant that no pair is doubly nil. -/
theorem C1_failedToLoadObjs_forces_unknown (env : CompareEnv) (m : ManagerCfg)
    (app : Application) (project : AppProject)
    (hrec : ∀ a b c d, ∀ p ∈ env.reconcile a b c d, p.1.isSome ∨ p.2.isSome) :
    (∀ (st : ComparisonSettings) (syncStatus0 : SyncStatusRec)
        (verifySignature noCache : Bool) (sources : List Source)
        (hasMultipleSources : Bool) (infoProvider : GroupKind → Bool)
        (targetObjs : List Obj) (targetNsExists : Bool)
        (manifestInfos : List ManifestResponse) (rmhc : Bool)
        (conds0 : List ApplicationCondition) (liveObjs : List (ResourceKey × Option Obj)),
      (compareTail env m app project st syncStatus0 verifySignature noCache sources
          hasMultipleSources infoProvider targetObjs targetNsExists manifestInfos rmhc
          conds0 true liveObjs).syncStatus.status = .unknown ∧
      ∀ r ∈ (compareTail env m app project st syncStatus0 verifySignature noCache sources
          hasMultipleSources infoProvider targetObjs targetNsExists manifestInfos rmhc
          conds0 true liveObjs).resources, r.status = .unknown) ∧
    (∀ (st : ComparisonSettings) (syncStatus0 : SyncStatusRec)
        (verifySignature noCache : Bool) (sources : List Source)
        (hasMultipleSources : Bool) (infoProvider : GroupKind → Bool)
        (targetObjs : List Obj) (targetNsExists : Bool)
        (manifestInfos : List ManifestResponse) (rmhc : Bool)
        (conds0 : List ApplicationCondition) (failed0 : Bool)
        (liveObjs : List (ResourceKey × Option Obj)) (e : String),
      (∀ a b c, env.stateDiffs a b c = .error e) →
      (compareTail env m app project st syncStatus0 verifySignature noCache sources
          hasMultipleSources infoProvider targetObjs targetNsExists manifestInfos rmhc
          conds0 failed0 liveObjs).syncStatus.status = .unknown ∧
      ∀ r ∈ (compareTail env m app project st syncStatus0 verifySignature noCache sources
          hasMultipleSources infoProvider targetObjs targetNsExists manifestInfos rmhc
          conds0 failed0 liveObjs).resources, r.status = .unknown) ∧
    (∀ (revisions : List String) (sources : List Source) (noCache noRevisionCache : Bool)
        (hasMultipleSources : Bool) (cache : CacheMap) (now : Nat)
        (st : ComparisonSettings) (dc : Cluster)
        (r : List (Option Obj) × List ManifestResponse × Bool) (e : String),
      env.getComparisonSettings = .ok st →
      env.getDestinationCluster = .ok dc →
      (∀ revs nc nrc vs, env.getRepoObjs sources revs nc nrc vs = .ok r) →
      (∀ objs, env.getManagedLiveObjs objs = .error e) →
      ∃ res,
        CompareAppState env m app project revisions sources noCache noRevisionCache []
            hasMultipleSources cache now = (deleteTs cache app.name, .ok res) ∧
        res.syncStatus.status = .unknown ∧
        ∀ x ∈ res.resources, x.status = .unknown) ∧
    (∀ (revisions : List String) (sources : List Source) (noCache noRevisionCache : Bool)
        (hasMultipleSources : Bool) (cache : CacheMap) (now : Nat)
        (st : ComparisonSettings) (dc : Cluster)
        (r : List (Option Obj) × List ManifestResponse × Bool)
        (lives : List (ResourceKey × Option Obj)) (e : String),
      env.getComparisonSettings = .ok st →
      env.getDestinationCluster = .ok dc →
      (∀ revs nc nrc vs, env.getRepoObjs sources revs nc nrc vs = .ok r) →
      (∀ objs, env.getManagedLiveObjs objs = .ok lives) →
      (∀ a b c, env.stateDiffs a b c = .error e) →
      ∃ res,
        CompareAppState env m app project revisions sources noCache noRevisionCache []
            hasMultipleSources cache now = (deleteTs cache app.name, .ok res) ∧
        res.syncStatus.status = .unknown ∧
        ∀ x ∈ res.resources, x.status = .unknown) := by
  refine ⟨?_, ?_, ?_, ?_⟩
  · intro st syncStatus0 verifySignature noCache sources hasMultipleSources infoProvider
      targetObjs targetNsExists manifestInfos rmhc conds0 liveObjs
    exact compareTail_failed_unknown env m app project st syncStatus0 verifySignature noCache
      sources hasMultipleSources infoProvider targetObjs targetNsExists manifestInfos rmhc
      conds0 liveObjs hrec
  · intro st syncStatus0 verifySignature noCache sources hasMultipleSources infoProvider
      targetObjs targetNsExists manifestInfos rmhc conds0 failed0 liveObjs e hdiff
    exact compareTail_diff_failed_unknown env m app project st syncStatus0 verifySignature
      noCache sources hasMultipleSources infoProvider targetObjs targetNsExists
      manifestInfos rmhc conds0 failed0 liveObjs e hrec hdiff
  · intro revisions sources noCache noRevisionCache hasMultipleSources cache now st dc r e
      hset hdc hrepo hlive
    simp only [CompareAppState, acquireTargetState, hset, hdc, hrepo, List.isEmpty, if_true]
    refine ⟨_, rfl, ?_⟩
    simp only [comparePostAcquire, hlive]
    exact compareTail_failed_unknown env m app project st _ _ noCache sources
      hasMultipleSources _ _ _ _ _ _ _ hrec
  · intro revisions sources noCache noRevisionCache hasMultipleSources cache now st dc r
      lives e hset hdc hrepo hlive hdiff
    simp only [CompareAppState, acquireTargetState, hset, hdc, hrepo, List.isEmpty, if_true]
    refine ⟨_, rfl, ?_⟩
    simp only [comparePostAcquire, hlive]
    exact compareTail_diff_failed_unknown env m app project st _ _ noCache sources
      hasMultipleSources _ _ _ _ _ _ _ _ e hrec hdiff

/-- C1 witness: a pass whose diff computation fails while acquisition and
live load succeed. -/
theorem C1_failedToLoadObjs_forces_unknown_witness :
    ∃ res,
      CompareAppState c1DiffEnv baseMgr fixApp fixProject ["r1"] [fixSource] false false []
          false emptyCache 0 =
        (deleteTs emptyCache fixApp.name, .ok res) ∧
      res.syncStatus.status = .unknown ∧
      ∀ x ∈ res.resources, x.status = .unknown :=
  (C1_failedToLoadObjs_forces_unknown c1DiffEnv baseMgr fixApp fixProject
      (by intro a b c d p hp; simp [c1DiffEnv, baseEnv] at hp)).2.2.2
    ["r1"] [fixSource] false false false emptyCache 0 fixSettings
    ⟨"https://kubernetes.default.svc"⟩ ([], [], false) [] "diff engine down"
    rfl rfl (fun _ _ _ _ => rfl) (fun _ => rfl) (fun _ _ _ => rfl)

/-- C7 counterexample: a non-skipped, self-referenced, modified pair that
is no excused managed namespace, whose group-kind is not permitted for the
project: the claim predicts OutOfSync, the code assigns Unknown. -/
theorem C7_counterexample :
    ({ baseEnv with isGroupKindPermitted := fun _ _ => false } : CompareEnv).isHook fixObj
        = false ∧
    ({ baseEnv with isGroupKindPermitted := fun _ _ => false } : CompareEnv).ignoreObj fixObj
        = false ∧
    ({ baseEnv with isGroupKindPermitted := fun _ _ => false } : CompareEnv).hookSkip fixObj
        = false ∧
    managerIsSelfReferencedObj baseEnv.unstructuredToAIV baseEnv.getAppInstance
        (some fixObj) (some fixObj) fixApp.name fixSettings.trackingMethod
        fixSettings.installationID = true ∧
    isManagedNamespace (some fixObj) fixApp = false ∧
    (⟨true, "", ""⟩ : DiffResult).modified = true ∧
    (classifyPair { baseEnv with isGroupKindPermitted := fun _ _ => false } fixSettings
        fixApp false .synced (some fixObj) (some fixObj) ⟨true, "", ""⟩).res.status
      = .unknown ∧
    (classifyPair { baseEnv with isGroupKindPermitted := fun _ _ => false } fixSettings
        fixApp false .synced (some fixObj) (some fixObj) ⟨true, "", ""⟩).res.status
      ≠ .outOfSync := by
  refine ⟨rfl, rfl, rfl, by decide, by decide, rfl, rfl, by decide⟩

/-- C7 (amended): for every non-skipped, self-referenced pair that is not
an excused managed namespace, provided the resource's group-kind is
permitted for the project and the pass did not fail to load objects, the
per-resource status is OutOfSync when the diff reports modification or
either side is nil and Synced otherwise; and a prune-eligible pair
carrying the IgnoreExtraneous option keeps per-resource status OutOfSync
while leaving the aggregate verdict unchanged. -/
theorem C7_classification_amended (env : CompareEnv) (st : ComparisonSettings)
    (app : Application) (sc : SyncStatusCode) (t l : Option Obj) (d : DiffResult)
    (obj : Obj)
    (hobj : (match l with | some _ => l | none => t) = some obj)
    (hhook : env.isHook obj = false) (hign : env.ignoreObj obj = false)
    (hhs : (match t with | some tObj => env.hookSkip tObj | none => false) = false)
    (hself : managerIsSelfReferencedObj env.unstructuredToAIV env.getAppInstance l t
      app.name st.trackingMethod st.installationID = true)
    (hmn : (isManagedNamespace t app && l.isNone) = false)
    (hperm : env.isGroupKindPermitted obj.groupKind
      ((env.liveIsNamespaced obj.groupKind).1 && (env.liveIsNamespaced obj.groupKind).2) = true) :
    ((classifyPair env st app false sc t l d).res.status =
      (if d.modified || t.isNone || l.isNone then .outOfSync else .synced)) ∧
    (t = none → l ≠ none →
      env.hasAnnotationOption obj annotationCompareOptions "IgnoreExtraneous" = true →
      (classifyPair env st app false sc t l d).res.status = .outOfSync ∧
      (classifyPair env st app false sc t l d).syncCode = sc) := by
  cases t with
  | none =>
    cases l with
    | none => simp at hobj
    | some lo =>
      have hobj2 : obj = lo := by simpa using hobj.symm
      subst hobj2
      constructor
      · simp only [classifyPair]
        simp [hhook, hign, hself, hperm]
      · intro ht hl hann
        simp only [classifyPair]
        simp [hhook, hign, hself, hperm, hann]
  | some tObj =>
    have hhs2 : env.hookSkip tObj = false := by simpa using hhs
    cases l with
    | some lo =>
      have hobj2 : obj = lo := by simpa using hobj.symm
      subst hobj2
      constructor
      · simp only [classifyPair]
        by_cases hm : d.modified <;> simp [hhook, hign, hself, hperm, hhs2, hm]
      · intro ht
        exact absurd ht (by simp)
    | none =>
      have hobj2 : obj = tObj := by simpa using hobj.symm
      subst hobj2
      have hmn2 : isManagedNamespace (some obj) app = false := by simpa using hmn
      constructor
      · simp only [classifyPair]
        simp [hhook, hign, hself, hperm, hhs2, hmn2]
      · intro ht
        exact absurd ht (by simp)

/-- C7 witness. -/
theorem C7_classification_amended_witness :
    (classifyPair baseEnv fixSettings fixApp false .synced (some fixObj) (some fixObj)
        ⟨true, "", ""⟩).res.status =
      (if (⟨true, "", ""⟩ : DiffResult).modified || (some fixObj).isNone ||
          (some fixObj).isNone then SyncStatusCode.outOfSync else .synced) :=
  (C7_classification_amended baseEnv fixSettings fixApp .synced (some fixObj) (some fixObj)
      ⟨true, "", ""⟩ fixObj rfl rfl rfl (by decide) (by decide) (by decide) rfl).1

/-- A completed acquisition loop that starts with the
`revisionsMayHaveChanges` flag raised returns it raised. -/
theorem getRepoObjsLoop_mono (env : RepoEnv) (app : Application) (numSources : Nat) :
    ∀ (srcs : List Source) (i : Nat) (revs : List String) (objs : List (Option Obj))
      (infos : List ManifestResponse) (a : List (Option Obj)) (b : List ManifestResponse)
      (flag : Bool),
      getRepoObjsLoop env app numSources i revs objs infos true srcs = .ok (a, b, flag) →
      flag = true := by
  intro srcs
  induction srcs with
  | nil =>
    intro i revs objs infos a b flag h
    simp only [getRepoObjsLoop] at h
    rcases h with ⟨rfl, rfl, rfl⟩
    rfl
  | cons s rest ih =>
    intro i revs objs infos a b flag h
    simp only [getRepoObjsLoop] at h
    split at h
    · simp at h
    · split at h
      · split at h
        · simp at h
        · rw [ite_self] at h
          split at h
          · simp at h
          · split at h
            · simp at h
            · exact ih _ _ _ _ _ _ _ h
      · split at h
        · simp at h
        · split at h
          · simp at h
          · exact ih _ _ _ _ _ _ _ h

/-- If the path-change check is skipped for any source of a completed
acquisition loop, the returned flag is raised. -/
theorem getRepoObjsLoop_skip (env : RepoEnv) (app : Application) (numSources : Nat) :
    ∀ (srcs : List Source) (j i : Nat) (src : Source) (revs : List String)
      (objs : List (Option Obj)) (infos : List ManifestResponse) (rmhc : Bool)
      (a : List (Option Obj)) (b : List ManifestResponse) (flag : Bool),
      srcs[j]? = some src → pathCheckRuns app (i + j) src = false →
      getRepoObjsLoop env app numSources i revs objs infos rmhc srcs = .ok (a, b, flag) →
      flag = true := by
  intro srcs
  induction srcs with
  | nil => intro j i src revs objs infos rmhc a b flag hj; simp at hj
  | cons s rest ih =>
    intro j i src revs objs infos rmhc a b flag hj hskip h
    simp only [getRepoObjsLoop] at h
    split at h
    · simp at h
    · cases j with
      | zero =>
        have hs : s = src := by simpa using hj
        subst hs
        rw [Nat.add_zero] at hskip
        rw [hskip] at h
        simp only [Bool.false_eq_true, if_false] at h
        split at h
        · simp at h
        · split at h
          · simp at h
          · exact getRepoObjsLoop_mono env app numSources _ _ _ _ _ _ _ _ h
      | succ j' =>
        have hj' : rest[j']? = some src := by simpa using hj
        have hskip' : pathCheckRuns app ((i + 1) + j') src = false := by
          have harith : (i + 1) + j' = i + (j' + 1) := by omega
          rw [harith]
          exact hskip
        split at h
        · split at h
          · simp at h
          · split at h
            · simp at h
            · split at h
              · simp at h
              · exact ih j' (i + 1) src _ _ _ _ _ _ _ hj' hskip' h
        · split at h
          · simp at h
          · split at h
            · simp at h
            · exact ih j' (i + 1) src _ _ _ _ _ _ _ hj' hskip' h

/-- C8: in `GetRepoObjs`, whenever the preliminary path-change check is
skipped for some source (chart-style or registry-style reference, empty
synced revision, or an absent/empty manifest-generate-paths annotation),
a successful return carries `revisionsMayHaveChanges = true`. -/
theorem C8_skipped_check_forces_changes (env : RepoEnv) (app : Application)
    (sources : List Source) (revisions : List String) (proj : AppProject)
    (sendRuntimeState : Bool) (j : Nat) (src : Source)
    (objs : List (Option Obj)) (infos : List ManifestResponse) (flag : Bool)
    (hj : sources[j]? = some src)
    (hskip : src.isHelmSrc = true ∨ src.isOCISrc = true ∨ syncedRevisionAt app j = "" ∨
      app.manifestGeneratePathsAnn = none ∨ app.manifestGeneratePathsAnn = some "")
    (hok : GetRepoObjs env app sources revisions proj sendRuntimeState =
      .ok (objs, infos, flag)) :
    flag = true := by
  have hpc : pathCheckRuns app j src = false := by
    rcases hskip with h | h | h | h | h <;> simp [pathCheckRuns, h]
  simp only [GetRepoObjs] at hok
  repeat' split at hok
  all_goals try simp at hok
  exact getRepoObjsLoop_skip env app sources.length sources j 0 src revisions [] [] false
    objs infos flag hj (by simpa using hpc) hok

/-- C8 witness: a single chart-style source with an empty synced revision
skips the check and reports possible changes. -/
theorem C8_skipped_check_forces_changes_witness :
    (GetRepoObjs baseRepoEnv fixApp [{ fixSource with isHelmSrc := true, chart := "guestbook" }]
        ["1.2.3"] fixProject true).isOk = true ∧
    ∀ r, GetRepoObjs baseRepoEnv fixApp [{ fixSource with isHelmSrc := true, chart := "guestbook" }]
        ["1.2.3"] fixProject true = .ok r → r.2.2 = true := by
  refine ⟨by decide, ?_⟩
  intro r hr
  obtain ⟨a, b, c⟩ := r
  exact C8_skipped_check_forces_changes baseRepoEnv fixApp
    [{ fixSource with isHelmSrc := true, chart := "guestbook" }] ["1.2.3"] fixProject true
    0 { fixSource with isHelmSrc := true, chart := "guestbook" } a b c rfl (Or.inl rfl) hr

/-- Inserting under a different key leaves a key's filtered view
unchanged. -/
theorem insertGrouped_filter_ne (k k' : ResourceKey) (o : Obj) (hne : k' ≠ k) :
    ∀ gs : List (ResourceKey × List Obj),
      (insertGrouped gs k o).filter (fun g => decide (g.1 = k')) =
        gs.filter (fun g => decide (g.1 = k')) := by
  intro gs
  induction gs with
  | nil => simp [insertGrouped, Ne.symm hne]
  | cons g rest ih =>
    obtain ⟨k1, l⟩ := g
    by_cases h1 : k1 = k
    · subst h1
      simp [insertGrouped, Ne.symm hne]
    · by_cases h2 : k1 = k'
      · subst h2
        simp [insertGrouped, h1, ih]
      · simp [insertGrouped, h1, h2, ih]

/-- Inserting under an absent key appends a fresh singleton group. -/
theorem insertGrouped_filter_new (k : ResourceKey) (o : Obj) :
    ∀ gs : List (ResourceKey × List Obj),
      gs.filter (fun g => decide (g.1 = k)) = [] →
      (insertGrouped gs k o).filter (fun g => decide (g.1 = k)) = [(k, [o])] := by
  intro gs
  induction gs with
  | nil => intro _; simp [insertGrouped]
  | cons g rest ih =>
    obtain ⟨k1, l⟩ := g
    intro h
    by_cases h1 : k1 = k
    · subst h1
      rw [List.filter_cons, if_pos (by simp)] at h
      simp at h
    · simp only [List.filter_cons, decide_eq_true_eq] at h
      rw [if_neg h1] at h
      simp [insertGrouped, h1, ih h]

/-- Inserting under a present key appends the object to that key's
group. -/
theorem insertGrouped_filter_present (k : ResourceKey) (o : Obj) :
    ∀ (gs : List (ResourceKey × List Obj)) (l0 : List Obj),
      gs.filter (fun g => decide (g.1 = k)) = [(k, l0)] →
      (insertGrouped gs k o).filter (fun g => decide (g.1 = k)) = [(k, l0 ++ [o])] := by
  intro gs
  induction gs with
  | nil => intro l0 h; simp at h
  | cons g rest ih =>
    obtain ⟨k1, l⟩ := g
    intro l0 h
    by_cases h1 : k1 = k
    · subst h1
      rw [List.filter_cons, if_pos (by simp)] at h
      simp only [List.cons.injEq, Prod.mk.injEq] at h
      obtain ⟨⟨-, hl⟩, hrest⟩ := h
      subst hl
      simp [insertGrouped, List.filter_cons, hrest]
    · simp only [List.filter_cons, decide_eq_true_eq] at h
      rw [if_neg h1] at h
      simp [insertGrouped, h1, ih l0 h]

/-- Folding keyed pairs into groups appends, in order, the values keyed
`k` to an existing `k` group. -/
theorem foldl_insert_filter_present (k : ResourceKey) :
    ∀ (ps : List (ResourceKey × Obj)) (gs : List (ResourceKey × List Obj)) (l0 : List Obj),
      gs.filter (fun g => decide (g.1 = k)) = [(k, l0)] →
      ((ps.foldl (fun gs p => insertGrouped gs p.1 p.2) gs).filter
          (fun g => decide (g.1 = k))) =
        [(k, l0 ++ (ps.filter (fun p => decide (p.1 = k))).map Prod.snd)] := by
  intro ps
  induction ps with
  | nil => intro gs l0 h; simpa using h
  | cons p ps' ih =>
    intro gs l0 h
    obtain ⟨pk, po⟩ := p
    by_cases hp : pk = k
    · have h2 : (insertGrouped gs pk po).filter (fun g => decide (g.1 = k)) =
          [(k, l0 ++ [po])] := by
        rw [hp]
        exact insertGrouped_filter_present k po gs l0 h
      have h3 := ih (insertGrouped gs pk po) (l0 ++ [po]) h2
      simp only [List.foldl_cons]
      rw [h3, List.filter_cons, if_pos (by simpa using hp)]
      simp [List.append_assoc]
    · have h2 : (insertGrouped gs pk po).filter (fun g => decide (g.1 = k)) = [(k, l0)] := by
        rw [insertGrouped_filter_ne pk k po (by simpa using Ne.symm hp) gs]
        exact h
      have h3 := ih (insertGrouped gs pk po) l0 h2
      simp only [List.foldl_cons]
      rw [h3, List.filter_cons, if_neg (by simpa using hp)]

/-- Folding keyed pairs into groups starting with no `k` group yields
exactly one `k` group holding the `k`-keyed values in order (or none when
there are no such values). -/
theorem foldl_insert_filter_new (k : ResourceKey) :
    ∀ (ps : List (ResourceKey × Obj)) (gs : List (ResourceKey × List Obj)),
      gs.filter (fun g => decide (g.1 = k)) = [] →
      ((ps.foldl (fun gs p => insertGrouped gs p.1 p.2) gs).filter
          (fun g => decide (g.1 = k))) =
        (if (ps.filter (fun p => decide (p.1 = k))) = [] then []
         else [(k, (ps.filter (fun p => decide (p.1 = k))).map Prod.snd)]) := by
  intro ps
  induction ps with
  | nil => intro gs h; simpa using h
  | cons p ps' ih =>
    intro gs h
    obtain ⟨pk, po⟩ := p
    by_cases hp : pk = k
    · have h2 : (insertGrouped gs pk po).filter (fun g => decide (g.1 = k)) =
          [(k, [po])] := by
        rw [hp]
        exact insertGrouped_filter_new k po gs h
      have h3 := foldl_insert_filter_present k ps' (insertGrouped gs pk po) [po] h2
      simp only [List.foldl_cons]
      have hcond : decide ((pk, po).1 = k) = true := by simp [hp]
      rw [h3, List.filter_cons, if_pos hcond, if_neg (by simp)]
      simp
    · have h2 : (insertGrouped gs pk po).filter (fun g => decide (g.1 = k)) = [] := by
        rw [insertGrouped_filter_ne pk k po (by simpa using Ne.symm hp) gs]
        exact h
      have h3 := ih (insertGrouped gs pk po) h2
      simp only [List.foldl_cons]
      have hcond : ¬(decide ((pk, po).1 = k) = true) := by simp [hp]
      rw [h3, List.filter_cons, if_neg hcond]

/-- The filtered view of the deduplication grouping at key `k` is exactly
the `k`-keyed normalized targets, in input order. -/
theorem dedupGroups_filter (ns : String) (isNamespaced : GroupKind → Bool)
    (objs : List (Option Obj)) (k : ResourceKey) :
    (dedupGroups ns isNamespaced objs).filter (fun g => decide (g.1 = k)) =
      (if ((keyedTargets ns isNamespaced objs).filter (fun p => decide (p.1 = k))) = [] then []
       else [(k, ((keyedTargets ns isNamespaced objs).filter
          (fun p => decide (p.1 = k))).map Prod.snd)]) :=
  foldl_insert_filter_new k (keyedTargets ns isNamespaced objs) [] rfl

/-- Counting one repeated-resource condition among the emitted dedup
conditions counts the groups that are repeated and print that
condition. -/
theorem countCond_dedupConds (c : ApplicationCondition) :
    ∀ gs : List (ResourceKey × List Obj),
      countCond (gs.filterMap (fun g =>
        if g.2.length > 1 then
          some ⟨.repeatedResourceWarning, repeatedMsg g.1 g.2.length⟩
        else none)) c =
      (gs.filter (fun g => decide (g.2.length > 1) &&
        decide ((⟨.repeatedResourceWarning, repeatedMsg g.1 g.2.length⟩ :
          ApplicationCondition) = c))).length := by
  intro gs
  induction gs with
  | nil => rfl
  | cons g rest ih =>
    by_cases h1 : g.2.length > 1
    · by_cases h2 : (⟨.repeatedResourceWarning, repeatedMsg g.1 g.2.length⟩ :
          ApplicationCondition) = c
      · simp [List.filterMap_cons, h1, h2, countCond_cons, ih, List.filter_cons,
          Nat.add_comm]
      · simp [List.filterMap_cons, h1, h2, countCond_cons, ih, List.filter_cons]
    · simp [List.filterMap_cons, h1, countCond_cons, ih, List.filter_cons]

/-- C3: when N > 1 normalized target objects share a resource key
(generateName-plus-index tie-breaking applied when the name is empty),
`DeduplicateTargetObjects` keeps exactly one object for that key — the
last of them in input order — and emits exactly one repeated-resource
condition naming that key with count N.  The injectivity hypothesis rules
out another key whose printed message collides with this key's. -/
theorem C3_deduplicate_target_objects (ns : String) (isNamespaced : GroupKind → Bool)
    (objs : List (Option Obj)) (k : ResourceKey) (N : Nat)
    (hN : ((keyedTargets ns isNamespaced objs).filter
      (fun p => decide (p.1 = k))).length = N)
    (h1 : 1 < N)
    (hinj : ∀ g ∈ dedupGroups ns isNamespaced objs,
      repeatedMsg g.1 g.2.length = repeatedMsg k N → g.1 = k) :
    ((DeduplicateTargetObjects ns objs isNamespaced).1 =
        (dedupResultKeyed ns isNamespaced objs).map Prod.snd) ∧
    ((dedupResultKeyed ns isNamespaced objs).filter (fun g => decide (g.1 = k)) =
        [(k, (((keyedTargets ns isNamespaced objs).filter
            (fun p => decide (p.1 = k))).map Prod.snd).getLastD default)]) ∧
    countCond (DeduplicateTargetObjects ns objs isNamespaced).2
        ⟨.repeatedResourceWarning, repeatedMsg k N⟩ = 1 := by
  have hne : (keyedTargets ns isNamespaced objs).filter (fun p => decide (p.1 = k)) ≠ [] := by
    intro hempty
    rw [hempty] at hN
    simp at hN
    omega
  have hkey := dedupGroups_filter ns isNamespaced objs k
  rw [if_neg hne] at hkey
  refine ⟨rfl, ?_, ?_⟩
  · unfold dedupResultKeyed
    rw [List.filter_map]
    have hcomp : ((fun g : ResourceKey × Obj => decide (g.1 = k)) ∘
        (fun g : ResourceKey × List Obj => (g.1, g.2.getLastD default))) =
        (fun g : ResourceKey × List Obj => decide (g.1 = k)) := rfl
    rw [hcomp, hkey]
    rfl
  · unfold DeduplicateTargetObjects
    rw [countCond_dedupConds]
    have hsplit : (dedupGroups ns isNamespaced objs).filter
        (fun g => decide (g.2.length > 1) &&
          decide ((⟨.repeatedResourceWarning, repeatedMsg g.1 g.2.length⟩ :
            ApplicationCondition) = ⟨.repeatedResourceWarning, repeatedMsg k N⟩)) =
        ((dedupGroups ns isNamespaced objs).filter (fun g => decide (g.1 = k))).filter
          (fun g => decide (g.2.length > 1) &&
            decide ((⟨.repeatedResourceWarning, repeatedMsg g.1 g.2.length⟩ :
              ApplicationCondition) = ⟨.repeatedResourceWarning, repeatedMsg k N⟩)) := by
      rw [List.filter_filter]
      refine List.filter_congr ?_
      intro g hg
      by_cases hp : (decide (g.2.length > 1) &&
          decide ((⟨.repeatedResourceWarning, repeatedMsg g.1 g.2.length⟩ :
            ApplicationCondition) = ⟨.repeatedResourceWarning, repeatedMsg k N⟩)) = true
      · rw [hp]
        have hmsg : repeatedMsg g.1 g.2.length = repeatedMsg k N := by
          have := (Bool.and_eq_true _ _).mp hp
          have h2 := of_decide_eq_true this.2
          exact congrArg ApplicationCondition.message h2
        have hk := hinj g hg hmsg
        simp [hk]
      · rw [Bool.not_eq_true] at hp
        rw [hp]
        rcases Bool.and_eq_false_iff.mp hp with h' | h' <;> simp [h']
    rw [hsplit, hkey]
    have hlen : (((keyedTargets ns isNamespaced objs).filter
        (fun p => decide (p.1 = k))).map Prod.snd).length = N := by
      rw [List.length_map]
      exact hN
    simp [List.filter_cons, hlen, h1]

/-- C3 witness: two rendered objects share a key; the second (last) one is
kept and one repeated-resource condition with count 2 is emitted. -/
theorem C3_deduplicate_target_objects_witness :
    ((DeduplicateTargetObjects "default"
        [some fixObj, some ⟨"apps", "v1", "Deployment", "default", "web", "", "2"⟩]
        (fun _ => true)).1 =
      (dedupResultKeyed "default" (fun _ => true)
        [some fixObj, some ⟨"apps", "v1", "Deployment", "default", "web", "", "2"⟩]).map
        Prod.snd) ∧
    ((dedupResultKeyed "default" (fun _ => true)
        [some fixObj, some ⟨"apps", "v1", "Deployment", "default", "web", "", "2"⟩]).filter
        (fun g => decide (g.1 = ⟨"apps", "Deployment", "default", "web"⟩)) =
      [(⟨"apps", "Deployment", "default", "web"⟩,
        (((keyedTargets "default" (fun _ => true)
            [some fixObj, some ⟨"apps", "v1", "Deployment", "default", "web", "", "2"⟩]).filter
          (fun p => decide (p.1 = ⟨"apps", "Deployment", "default", "web"⟩))).map
          Prod.snd).getLastD default)]) ∧
    countCond (DeduplicateTargetObjects "default"
        [some fixObj, some ⟨"apps", "v1", "Deployment", "default", "web", "", "2"⟩]
        (fun _ => true)).2
      ⟨.repeatedResourceWarning,
        repeatedMsg ⟨"apps", "Deployment", "default", "web"⟩ 2⟩ = 1 :=
  C3_deduplicate_target_objects "default" (fun _ => true)
    [some fixObj, some ⟨"apps", "v1", "Deployment", "default", "web", "", "2"⟩]
    ⟨"apps", "Deployment", "default", "web"⟩ 2 (by decide) (by decide) (by decide)

/-- The not-signed message determines the revision it names. -/
theorem notSignedMsg_injective (r1 r2 : String) (h : notSignedMsg r1 = notSignedMsg r2) :
    r1 = r2 := by
  unfold notSignedMsg at h
  have hdata := congrArg String.data h
  rw [String.data_append, String.data_append, String.data_append, String.data_append] at hdata
  have h2 := List.append_cancel_left hdata
  have h3 := List.append_cancel_right h2
  exact String.ext h3

/-- An untrusted-key message is never a not-signed message. -/
theorem untrustedKeyMsg_ne_notSignedMsg (c k r : String) :
    untrustedKeyMsg c k ≠ notSignedMsg r := by
  unfold untrustedKeyMsg notSignedMsg
  exact append_ne_of_head_ne _ _ _ _ 'F' 'T' rfl rfl (by decide)

/-- An invalid-signature message is never a not-signed message. -/
theorem invalidSigMsg_ne_notSignedMsg (c k m r : String) :
    invalidSigMsg c k m ≠ notSignedMsg r := by
  unfold invalidSigMsg notSignedMsg
  exact append_ne_of_head_ne _ _ _ _ 'F' 'T' rfl rfl (by decide)

/-- A could-not-verify message is never a not-signed message. -/
theorem couldNotVerifyMsg_ne_notSignedMsg (r1 r : String) :
    couldNotVerifyMsg r1 ≠ notSignedMsg r := by
  unfold couldNotVerifyMsg notSignedMsg
  exact append_ne_of_head_ne _ _ _ _ 'C' 'T' rfl rfl (by decide)

/-- Counting the not-signed condition for revision `rev` over the
signature gate's output for a list of render responses counts the
responses with an empty verification payload and that revision. -/
theorem countCond_gpgConds (parse : String → GPGVerifyResult) (keyID : String → String)
    (project : AppProject) (rev : String) :
    ∀ infos : List ManifestResponse,
      countCond ((infos.map (fun mi =>
          verifyGnuPGSignature parse keyID mi.revision project mi)).flatten)
        ⟨.comparisonError, notSignedMsg rev⟩ =
      (infos.filter (fun mi => decide (mi.verifyResult = "") &&
        decide (mi.revision = rev))).length := by
  intro infos
  induction infos with
  | nil => rfl
  | cons mi rest ih =>
    simp only [List.map_cons, List.flatten_cons, countCond_append, ih]
    by_cases hv : mi.verifyResult = ""
    · by_cases hr : mi.revision = rev
      · simp [verifyGnuPGSignature, hv, hr, countCond_cons, countCond_nil, List.filter_cons,
          Nat.add_comm]
      · have hne : (⟨.comparisonError, notSignedMsg mi.revision⟩ : ApplicationCondition) ≠
            ⟨.comparisonError, notSignedMsg rev⟩ := by
          intro hc
          exact hr (notSignedMsg_injective _ _ (congrArg ApplicationCondition.message hc))
        simp [verifyGnuPGSignature, hv, hr, hne, countCond_cons, countCond_nil,
          List.filter_cons]
    · have h0 : countCond (verifyGnuPGSignature parse keyID mi.revision project mi)
          ⟨.comparisonError, notSignedMsg rev⟩ = 0 := by
        unfold verifyGnuPGSignature
        rw [if_pos hv]
        cases hres : (parse mi.verifyResult).result with
        | good =>
          simp only [hres]
          by_cases hvk : (project.signatureKeys.any (fun k =>
              decide (keyID k = keyID (parse mi.verifyResult).keyID) &&
                decide (keyID k ≠ ""))) = true
          · rw [if_pos hvk]
            rfl
          · rw [if_neg hvk]
            simp [countCond_cons, countCond_nil, untrustedKeyMsg_ne_notSignedMsg]
        | invalid =>
          simp only [hres]
          simp [countCond_cons, countCond_nil, invalidSigMsg_ne_notSignedMsg]
        | other =>
          simp only [hres]
          simp [countCond_cons, countCond_nil, couldNotVerifyMsg_ne_notSignedMsg]
      rw [h0, List.filter_cons]
      simp [hv]

/-- C6: a render response with an empty verification payload makes the
signature gate emit exactly one comparison-error condition whose message
says the revision is not signed and contains the revision string; and a
comparison pass with signature keys declared and GPG enabled still
completes, carrying exactly one such condition for the affected revision
while computing a sync status. -/
theorem C6_unsigned_revision_condition (env : CompareEnv) (m : ManagerCfg)
    (app : Application) (project : AppProject) :
    (∀ mi : ManifestResponse, mi.verifyResult = "" →
      verifyGnuPGSignature env.parseGitCommitVerification env.keyID mi.revision project mi =
        [⟨.comparisonError, notSignedMsg mi.revision⟩] ∧
      (∃ a b, notSignedMsg mi.revision = a ++ ("is not signed" ++ b)) ∧
      (∃ a b, notSignedMsg mi.revision = a ++ (mi.revision ++ b))) ∧
    (∀ (revisions : List String) (sources : List Source) (noCache noRevisionCache : Bool)
        (hasMultipleSources : Bool) (cache : CacheMap) (now : Nat)
        (st : ComparisonSettings) (dc : Cluster) (ip : GroupKind → Bool)
        (infos : List ManifestResponse) (rmhc : Bool) (rev : String)
        (hcode : HealthStatusCode),
      env.getComparisonSettings = .ok st →
      env.getDestinationCluster = .ok dc →
      env.gpgEnabled = true →
      project.signatureKeys ≠ [] →
      (∀ revs nc nrc vs, env.getRepoObjs sources revs nc nrc vs = .ok ([], infos, rmhc)) →
      env.getClusterCache = .ok ip →
      env.getManagedLiveObjs [] = .ok [] →
      env.reconcile [] [] app.spec.destination.ns ip = [] →
      (∀ c, env.stateDiffs [] [] c = .ok []) →
      env.getGVKParser = .ok () →
      m.serverSideDiff = false →
      (∀ k v, env.appHasAnnotationOption k v = false) →
      env.setApplicationHealth [] [] app = (hcode, none) →
      app.hasChangedManagedNamespaceMetadata = false →
      (infos.filter (fun mi => decide (mi.verifyResult = "") &&
        decide (mi.revision = rev))).length = 1 →
      ∃ res,
        CompareAppState env m app project revisions sources noCache noRevisionCache []
            hasMultipleSources cache now = (deleteTs cache app.name, .ok res) ∧
        countCond res.conditions ⟨.comparisonError, notSignedMsg rev⟩ = 1 ∧
        res.syncStatus.status = .synced) := by
  constructor
  · intro mi hv
    refine ⟨?_, ?_, ?_⟩
    · unfold verifyGnuPGSignature
      rw [if_neg (by simp [hv])]
    · refine ⟨"Target revision " ++ (mi.revision ++ " in Git "),
        ", but a signature is required", ?_⟩
      have hlit : (" in Git is not signed, but a signature is required" : String) =
          " in Git " ++ ("is not signed" ++ ", but a signature is required") := by decide
      simp [notSignedMsg, hlit, String.append_assoc]
    · exact ⟨"Target revision ",
        " in Git is not signed, but a signature is required", rfl⟩
  · intro revisions sources noCache noRevisionCache hasMultipleSources cache now st dc ip
      infos rmhc rev hcode hset hdc hgpg hkeys hrepo hcc hlive hrecn hdiffs hgvk hmssd hann
      hhealth hmnm hone
    simp only [CompareAppState, acquireTargetState, hset, hdc, hrepo, List.isEmpty, if_true]
    refine ⟨_, rfl, ?_, ?_⟩
    · simp only [comparePostAcquire, hcc, hlive, compareTail, hrecn, hdiffs, hgvk, hmssd,
        hann, hhealth, hmnm, hgpg, hkeys, normalizeClusterScopeTracking,
        DeduplicateTargetObjects, dedupResultKeyed, dedupGroups, keyedTargets,
        exclusionFilter, filterPermittedLive, liveMetaLoop, classifyFold, List.enum_nil,
        List.filterMap_nil, List.foldl_nil, List.map_nil, List.nil_append, List.append_nil,
        List.any_nil, Bool.false_or, Bool.or_false, if_false, Bool.and_true, Bool.true_and,
        countCond_append, countCond_nil, decide_eq_true_eq]
      simp [hkeys, countCond_append, countCond_nil, countCond_gpgConds, hone]
    · simp only [comparePostAcquire, hcc, hlive, compareTail, hrecn, hdiffs, hgvk, hmssd,
        hann, hhealth, hmnm, normalizeClusterScopeTracking, DeduplicateTargetObjects,
        dedupResultKeyed, dedupGroups, keyedTargets, exclusionFilter, filterPermittedLive,
        liveMetaLoop, classifyFold, List.enum_nil, List.filterMap_nil, List.foldl_nil,
        List.map_nil, List.nil_append, List.append_nil, Bool.false_or, Bool.or_false,
        if_false, finalSyncCode]
      simp [finalSyncCode, hmnm]

/-- C6 witness: one source whose render response carries no verification
payload under a project with a declared signature key. -/
theorem C6_unsigned_revision_condition_witness :
    ∃ res,
      CompareAppState c6Env baseMgr fixApp fixProject ["abc123"] [fixSource] false false []
          false emptyCache 0 =
        (deleteTs emptyCache fixApp.name, .ok res) ∧
      countCond res.conditions ⟨.comparisonError, notSignedMsg "abc123"⟩ = 1 ∧
      res.syncStatus.status = .synced :=
  (C6_unsigned_revision_condition c6Env baseMgr fixApp fixProject).2 ["abc123"] [fixSource]
    false false false emptyCache 0 fixSettings ⟨"https://kubernetes.default.svc"⟩
    (fun _ => true) [c6Info] false "abc123" .healthy rfl rfl rfl (by decide)
    (fun _ _ _ _ => rfl) rfl rfl rfl (fun _ => rfl) rfl rfl (fun _ _ => rfl) rfl rfl
    (by decide)
